import Mathlib

/-!
Verification of the IPECC hardware-accelerator driver
(`hw_accelerator_driver_ipecc.c`) against its natural-language
specification.  The driver's pure computations (big-number codec, size
helpers, register-field packing) are embedded directly; its interactions
with the memory-mapped hardware are embedded as functions of an explicit
oracle/state recording the values the hardware returns and the register
writes the driver issues.
-/

namespace IPECC

/-- Byte width of `ip_ecc_word`: the driver defaults to the 32-bit hardware
configuration (`WITH_EC_HW_ACCELERATOR_WORD32` is defined when neither
width macro is given, lines 42-51 of `hw_accelerator_driver_ipecc.c`),
so `sizeof(ip_ecc_word) = 4`. -/
def ipEccWordBytes : Nat := 4

/-- Model of `ip_ecc_nn_words_from_bytes_sz`: the number of hardware words
needed to hold a big number of `sz` bytes. -/
def ip_ecc_nn_words_from_bytes_sz (sz : Nat) : Nat :=
  let curr_word_sz := sz / ipEccWordBytes
  if sz % ipEccWordBytes = 0 then curr_word_sz else curr_word_sz + 1

/-- Model of `ip_ecc_nn_bytes_from_bits_sz`: the number of bytes needed to
hold a big number of `sz` bits. -/
def ip_ecc_nn_bytes_from_bits_sz (sz : Nat) : Nat :=
  let curr_bytes_sz := sz / 8
  if sz % 8 = 0 then curr_bytes_sz else curr_bytes_sz + 1

/-- Model of the inner `for (j = 0; j < sizeof(w); j++)` loop of
`ip_ecc_write_bignum`: packs up to `fuel` further bytes of `a`, walking
backward from `bytesIdx`, into the accumulator `w` (byte number `j` of the
word receives `a[bytesIdx]`, i.e. `w |= a[bytes_idx] << (8*j)`).  Returns
the packed word, the updated `bytes_idx` and the `end` flag (set when byte
index 0 has been consumed). -/
def write_bignum_pack (a : List Nat) : Nat → Nat → Nat → Nat → Nat × Nat × Bool
  | w, bytesIdx, _, 0 => (w, bytesIdx, false)
  | w, bytesIdx, j, fuel + 1 =>
    let w' := w ||| (a.getD bytesIdx 0 <<< (8 * j))
    if bytesIdx = 0 then (w', 0, true)
    else write_bignum_pack a w' (bytesIdx - 1) (j + 1) fuel

/-- Model of the outer `while (words_sent < nn_size)` loop of
`ip_ecc_write_bignum`: the list of words pushed to the IP, in push order
(least-significant word first).  Once the `end` flag is set, the remaining
words are pushed as zero. -/
def write_bignum_loop (a : List Nat) : Nat → Nat → Bool → List Nat
  | 0, _, _ => []
  | n + 1, bytesIdx, e =>
    if e then 0 :: write_bignum_loop a n bytesIdx e
    else
      let r := write_bignum_pack a 0 bytesIdx 0 ipEccWordBytes
      r.1 :: write_bignum_loop a n r.2.1 r.2.2

/-- Model of `ip_ecc_write_bignum` (driver lines 2213-2282), restricted to a
non-NULL input buffer `a` (given as its byte contents, big-endian): returns
the sequence of words pushed to the IP, or `none` on the size-overflow
check `curr_word_sz > nn_size`.  `nn` is the current field bit width read
from the hardware. -/
def ip_ecc_write_bignum (a : List Nat) (nn : Nat) : Option (List Nat) :=
  let nn_size := ip_ecc_nn_words_from_bytes_sz (ip_ecc_nn_bytes_from_bits_sz nn)
  let curr_word_sz := ip_ecc_nn_words_from_bytes_sz a.length
  if curr_word_sz > nn_size then none
  else
    some (write_bignum_loop a nn_size (if 1 ≤ a.length then a.length - 1 else 0)
      (decide (a.length < 1)))

/-- Model of the inner `for (j = 0; j < sizeof(w); j++)` loop of
`ip_ecc_read_bignum`: scatters up to `fuel` bytes of the received word `w`
into the buffer, walking backward from `bytesIdx`
(`a[bytes_idx] = (w >> (8*j)) & 0xff`).  Returns the updated buffer, the
updated `bytes_idx` and the `end` flag. -/
def read_bignum_scatter (w : Nat) : List Nat → Nat → Nat → Nat → List Nat × Nat × Bool
  | buf, bytesIdx, _, 0 => (buf, bytesIdx, false)
  | buf, bytesIdx, j, fuel + 1 =>
    let buf' := buf.set bytesIdx ((w >>> (8 * j)) &&& 0xff)
    if bytesIdx = 0 then (buf', 0, true)
    else read_bignum_scatter w buf' (bytesIdx - 1) (j + 1) fuel

/-- Model of the outer `while (words_received < nn_size)` loop of
`ip_ecc_read_bignum`: pops `n` words (the successive elements of `ws`,
which is the stream of words the IP delivers, least-significant first) and
scatters them into the buffer.  Words popped after the `end` flag is set
are discarded. -/
def read_bignum_loop : Nat → List Nat → List Nat → Nat → Bool → List Nat
  | 0, _, buf, _, _ => buf
  | n + 1, ws, buf, bytesIdx, e =>
    let w := ws.headD 0
    if e then read_bignum_loop n ws.tail buf bytesIdx e
    else
      let r := read_bignum_scatter w buf bytesIdx 0 ipEccWordBytes
      read_bignum_loop n ws.tail r.1 r.2.1 r.2.2

/-- Model of `ip_ecc_read_bignum` (driver lines 2291-2344), restricted to a
non-NULL output buffer (given with its current contents `buf`, whose length
is the caller's `a_sz`): `ws` is the stream of words the IP delivers.
Returns the final buffer contents, or `none` on the size-overflow check. -/
def ip_ecc_read_bignum (buf : List Nat) (ws : List Nat) (nn : Nat) : Option (List Nat) :=
  let nn_size := ip_ecc_nn_words_from_bytes_sz (ip_ecc_nn_bytes_from_bits_sz nn)
  let curr_word_sz := ip_ecc_nn_words_from_bytes_sz buf.length
  if curr_word_sz > nn_size then none
  else
    some (read_bignum_loop nn_size ws buf (if 1 ≤ buf.length then buf.length - 1 else 0)
      (decide (buf.length < 1)))

/-- Arithmetic value of a packed 4-byte little-endian word (byte 0 least
significant), used to characterise `write_bignum_pack`. -/
def packChunk4 (b0 b1 b2 b3 : Nat) : Nat :=
  b0 + 256 * b1 + 65536 * b2 + 16777216 * b3

/-- Byte number `k` of the backward walk of `a` that starts at byte index
`idx`: the byte stream `a[idx], a[idx-1], ..., a[0], 0, 0, ...` fed to the
IP word by word. -/
def byteAt (a : List Nat) (idx k : Nat) : Nat :=
  if k ≤ idx then a.getD (idx - k) 0 else 0

/-- Specification form of the word list produced by `write_bignum_loop`:
word `i` packs bytes `4*i .. 4*i+3` of the backward byte walk. -/
def specWords (a : List Nat) (idx : Nat) : Nat → List Nat
  | 0 => []
  | n + 1 =>
    packChunk4 (byteAt a idx 0) (byteAt a idx 1) (byteAt a idx 2) (byteAt a idx 3) ::
      (if idx < 4 then List.replicate n 0 else specWords a (idx - 4) n)

/-- Byte number `k` of the byte stream delivered by the word stream `ws`
(4 bytes per word, least-significant byte of each word first). -/
def wByte (ws : List Nat) (k : Nat) : Nat :=
  (ws.getD (k / 4) 0 >>> (8 * (k % 4))) &&& 0xff


/-! Status-register fields (driver lines 345-358) and the error field
accessors of `R_STATUS` / `W_ERR_ACK`. -/

/-- Bit `IPECC_R_STATUS_ENOUGH_RND_WK` of `R_STATUS` (driver line 352). -/
def IPECC_R_STATUS_ENOUGH_RND_WK : Nat := 1 <<< 10

/-- Constant `IPECC_R_STATUS_ERRID_MSK` (driver line 357). -/
def IPECC_R_STATUS_ERRID_MSK : Nat := 0xffff

/-- Constant `IPECC_R_STATUS_ERRID_POS` (driver line 358). -/
def IPECC_R_STATUS_ERRID_POS : Nat := 16

/-- Model of the macro `IPECC_GET_ERROR()` (driver lines 823-825): the error
field extracted from the value `status` read from `R_STATUS`. -/
def IPECC_GET_ERROR (status : Nat) : Nat :=
  (status >>> IPECC_R_STATUS_ERRID_POS) &&& IPECC_R_STATUS_ERRID_MSK

/-- Value the macro `IPECC_ACK_ERROR(err)` (driver lines 873-875) writes to
the `W_ERR_ACK` register. -/
def IPECC_ACK_ERROR_val (err : Nat) : Nat :=
  (err &&& IPECC_R_STATUS_ERRID_MSK) <<< IPECC_R_STATUS_ERRID_POS

/-- Result of `ip_ecc_check_error`: the C return code, the value stored
through the optional `out` pointer, and the value written to `W_ERR_ACK`
(`none` when no acknowledge write is issued). -/
structure CheckErrorResult where
  ret : Int
  out : Option Nat
  ack : Option Nat
deriving Repr, DecidableEq

/-- Model of `ip_ecc_check_error` (driver lines 1839-1861): `status` is the
value read from `R_STATUS`; `withOut` tells whether the caller passed a
non-NULL `out` pointer. -/
def ip_ecc_check_error (status : Nat) (withOut : Bool) : CheckErrorResult :=
  let err := IPECC_GET_ERROR status
  let out := if withOut then some err else none
  if err ≠ 0 then { ret := -1, out := out, ack := some (IPECC_ACK_ERROR_val err) }
  else { ret := 0, out := out, ack := none }

/-- Model of the spin loop of the macro `IPECC_ENOUGH_WK_RANDOM_WAIT()`
(driver lines 557-559):
`while (IPECC_GET_REG(IPECC_R_STATUS) & IPECC_R_STATUS_ENOUGH_RND_WK) {}`.
`status t` is the value returned by the `t`-th read of `R_STATUS`; the
result is the index of the status read at which the loop falls through
(`none` if the loop is still spinning after `fuel` reads). -/
def IPECC_ENOUGH_WK_RANDOM_WAIT (status : Nat → Nat) : Nat → Nat → Option Nat
  | 0, _ => none
  | fuel + 1, t =>
    if status t &&& IPECC_R_STATUS_ENOUGH_RND_WK ≠ 0 then
      IPECC_ENOUGH_WK_RANDOM_WAIT status fuel (t + 1)
    else some t

/-- In `ip_ecc_write_bignum` (driver lines 2235-2252), when the target
register is `EC_HW_REG_SCALAR` the driver runs
`IPECC_ENOUGH_WK_RANDOM_WAIT()` and then immediately issues the
write-select for the register followed by the data-word pushes, with no
further read of the "enough random" bit.  The transmission of the scalar
therefore begins at the status-read index at which the wait macro falls
through (`none`: the wait spins forever and the scalar is never sent). -/
def write_bignum_scalar_transmit_time (status : Nat → Nat) (fuel : Nat) : Option Nat :=
  IPECC_ENOUGH_WK_RANDOM_WAIT status fuel 0

/-! State of the hardware point registers and the null-flag save/restore
pattern of the point-operation entry points. -/

/-- State of the two hardware point registers `R0`/`R1` as the driver
observes them: the per-point null ("point at infinity") flags and the
buffered coordinates. -/
structure PointRegs where
  r0_inf : Bool
  r1_inf : Bool
  r0_x : List Nat
  r0_y : List Nat
  r1_x : List Nat
  r1_y : List Nat
deriving Repr, DecidableEq

/-- Modelled from the spec: the hardware (the VHDL IP, outside `src/`)
clears a point's null flag whenever coordinates are pushed into it --
"writing coordinates to a slot implicitly clears its null flag", also
stated in the driver comment above `ip_ecc_set_r0_inf` (lines 2503-2505:
"pushing coordinates to the IP for point R0 automatically makes R0 a
not-null point").  Effect on the register state of a coordinate write
into `R0`. -/
def hw_write_r0_coords (s : PointRegs) (x y : List Nat) : PointRegs :=
  { s with r0_x := x, r0_y := y, r0_inf := false }

/-- Modelled from the spec: same hardware behaviour for a coordinate write
into `R1` (see `hw_write_r0_coords`). -/
def hw_write_r1_coords (s : PointRegs) (x y : List Nat) : PointRegs :=
  { s with r1_x := x, r1_y := y, r1_inf := false }

/-- Model of `ip_ecc_get_r0_inf` (driver lines 2469-2477): stores the flag
into the `int` out-parameter (0 or 1) and always returns 0. -/
def ip_ecc_get_r0_inf (s : PointRegs) : Nat := cond s.r0_inf 1 0

/-- Model of `ip_ecc_get_r1_inf` (driver lines 2482-2490). -/
def ip_ecc_get_r1_inf (s : PointRegs) : Nat := cond s.r1_inf 1 0

/-- Model of `ip_ecc_set_r0_inf` (driver lines 2507-2537): the `int` value
0 clears the null flag, 1 sets it, any other value is an error (`none`). -/
def ip_ecc_set_r0_inf (s : PointRegs) (val : Nat) : Option PointRegs :=
  match val with
  | 0 => some { s with r0_inf := false }
  | 1 => some { s with r0_inf := true }
  | _ => none

/-- Model of `ip_ecc_set_r1_inf` (driver lines 2545-2575). -/
def ip_ecc_set_r1_inf (s : PointRegs) (val : Nat) : Option PointRegs :=
  match val with
  | 0 => some { s with r1_inf := false }
  | 1 => some { s with r1_inf := true }
  | _ => none

/-- The save-coordinates-write-restore pattern shared by the
point-operation entry points (`hw_driver_is_on_curve` lines 7274-7296,
and likewise `hw_driver_eq`, `_opp`, `_neg`, `_dbl`, `_add`,
`hw_driver_mul` lines 7802-7841): both null flags are read first
(`ip_ecc_get_r{0,1}_inf`), the operand coordinates are written into `R0`
and/or `R1` (`wR0`/`wR1` select which registers the particular operation
loads), and both flags are then restored with `ip_ecc_set_r{0,1}_inf`. -/
def point_op_inf_save_restore (s : PointRegs) (wR0 wR1 : Bool)
    (x0 y0 x1 y1 : List Nat) : Option PointRegs :=
  let inf_r0 := ip_ecc_get_r0_inf s
  let inf_r1 := ip_ecc_get_r1_inf s
  let s1 := if wR0 then hw_write_r0_coords s x0 y0 else s
  let s2 := if wR1 then hw_write_r1_coords s1 x1 y1 else s1
  match ip_ecc_set_r0_inf s2 inf_r0 with
  | none => none
  | some s3 => ip_ecc_set_r1_inf s3 inf_r1

/-! Debug surface: microcode patching, breakpoints, attack levels. -/

/-- Names of the hardware write registers touched by the models below. -/
inductive Reg where
  | W_DBG_BKPT
  | W_ATTACK_CFG_0
  | W_ATTACK_CFG_1
  | W_DBG_CFG_AXIMSK
  | W_DBG_OP_WADDR
  | W_DBG_OPCODE
  | W_ZREMASK
  | W_PRIME_SIZE
deriving Repr, DecidableEq

/-- Doubling loop of `ge_pow_of_2` (driver lines 81-84), run with explicit
fuel; 32 iterations are enough for any `i ≤ 2^31`. -/
def ge_pow_of_2_loop (i : Nat) : Nat → Nat → Nat
  | 0, pw => pw
  | fuel + 1, pw => if pw < i then ge_pow_of_2_loop i fuel (pw * 2) else pw

/-- Model of `ge_pow_of_2` (driver lines 73-88): the power of two equal to
or directly greater than `i`, failing for `i > 2^31`. -/
def ge_pow_of_2 (i : Nat) : Option Nat :=
  if i > 2 ^ 31 then none else some (ge_pow_of_2_loop i 32 1)

/-- Value written by `IPECC_SET_OPCODE_WRITE_ADDRESS(addr)` (driver lines
1056-1059) to `W_DBG_OP_WADDR`. -/
def IPECC_SET_OPCODE_WRITE_ADDRESS_val (addr : Nat) : Nat :=
  (addr &&& 0xffff) <<< 0

/-- Value written by `IPECC_SET_OPCODE_TO_WRITE(opcode)` (driver lines
1064-1067) to `W_DBG_OPCODE`. -/
def IPECC_SET_OPCODE_TO_WRITE_val (opcode : Nat) : Nat :=
  (opcode &&& 0xffffffff) <<< 0

/-- Model of `ip_ecc_patch_one_opcode` (driver lines 2793-2855).  `halted`
and `busy` are the values of `IPECC_IS_IP_DEBUG_HALTED()` and
`IPECC_IS_IP_BUSY()`; `nbopcodes` is `IPECC_GET_NBOPCODES()`.  Returns the
C return code together with the ordered list of register writes issued. -/
def ip_ecc_patch_one_opcode (halted busy : Bool) (nbopcodes : Nat)
    (address opcode_msb opcode_lsb opsz : Nat) : Int × List (Reg × Nat) :=
  if !halted && busy then (-1, [])
  else if opsz ≠ 1 ∧ opsz ≠ 2 then (-1, [])
  else
    match ge_pow_of_2 nbopcodes with
    | none => (-1, [])
    | some nbopcodes_max =>
      if address > nbopcodes_max then (-1, [])
      else
        (0, (Reg.W_DBG_OP_WADDR, IPECC_SET_OPCODE_WRITE_ADDRESS_val address) ::
          (if opsz = 2 then
            [(Reg.W_DBG_OPCODE, IPECC_SET_OPCODE_TO_WRITE_val opcode_lsb),
             (Reg.W_DBG_OPCODE, IPECC_SET_OPCODE_TO_WRITE_val opcode_msb)]
          else
            [(Reg.W_DBG_OPCODE, IPECC_SET_OPCODE_TO_WRITE_val opcode_lsb)]))

/-- Register writes of the `for (i=0; i<nbops; i++)` loop of
`ip_ecc_patch_microcode` (driver lines 2951-2972): for each opcode index
`i`, the write address then one or two opcode words from `buf`. -/
def patch_microcode_loop (buf : List Nat) (opsz nbops : Nat) : List (Reg × Nat) :=
  (List.range nbops).flatMap fun i =>
    (Reg.W_DBG_OP_WADDR, IPECC_SET_OPCODE_WRITE_ADDRESS_val i) ::
      (if opsz = 2 then
        [(Reg.W_DBG_OPCODE, IPECC_SET_OPCODE_TO_WRITE_val (buf.getD (2*i + 1) 0)),
         (Reg.W_DBG_OPCODE, IPECC_SET_OPCODE_TO_WRITE_val (buf.getD (2*i) 0))]
      else
        [(Reg.W_DBG_OPCODE, IPECC_SET_OPCODE_TO_WRITE_val (buf.getD i 0))])

/-- Model of `ip_ecc_patch_microcode` (driver lines 2866-2977). -/
def ip_ecc_patch_microcode (halted busy : Bool) (nbopcodes : Nat)
    (buf : List Nat) (nbops opsz : Nat) : Int × List (Reg × Nat) :=
  if !halted && busy then (-1, [])
  else if opsz ≠ 1 ∧ opsz ≠ 2 then (-1, [])
  else
    match ge_pow_of_2 nbopcodes with
    | none => (-1, [])
    | some nbopcodes_max =>
      if nbops > nbopcodes_max then (-1, [])
      else (0, patch_microcode_loop buf opsz nbops)

/-- Oracle for the debug-surface models: the capability and status bits the
driver reads, plus the outcome of the one-time `driver_setup()`. -/
structure DbgOracle where
  setup_ok : Bool
  secure : Bool
  halted : Bool
  busy : Bool
  nbopcodes : Nat
deriving Repr, DecidableEq

/-- Value written by `IPECC_SET_BKPT(id, addr, nbbit, state)` (driver lines
975-981) to `W_DBG_BKPT`: enable bit plus the id/addr/nbbit/state fields. -/
def IPECC_SET_BKPT_val (id addr nbbit state : Nat) : Nat :=
  1 ||| ((id &&& 0x3) <<< 1) ||| ((addr &&& 0xfff) <<< 4) |||
    ((nbbit &&& 0xfff) <<< 16) ||| ((state &&& 0xf) <<< 28)

/-- Modelled from the spec: `IPECC_DEBUG_STATE_ANY_OR_IDLE` is an FSM-state
wildcard constant exported from the VHDL package through a header
(`ecc_states.h`) that is not under `src/`; its concrete value does not
matter to any claim, it only fills the 4-bit state field of the breakpoint
word. -/
def IPECC_DEBUG_STATE_ANY_OR_IDLE : Nat := 0

/-- Model of `ip_ecc_set_breakpoint` (driver lines 2604-2615): one
unconditional register write (no busy-wait), always returns 0. -/
def ip_ecc_set_breakpoint (addr id : Nat) : Int × List (Reg × Nat) :=
  (0, [(Reg.W_DBG_BKPT,
    IPECC_SET_BKPT_val id addr 0 IPECC_DEBUG_STATE_ANY_OR_IDLE)])

/-- Model of `hw_driver_set_breakpoint_DBG` (driver lines 5402-5422):
fails on `driver_setup()` failure, then on `IPECC_IS_HW_SECURE()`, both
without touching hardware; only then calls `ip_ecc_set_breakpoint`. -/
def hw_driver_set_breakpoint_DBG (o : DbgOracle) (addr id : Nat) :
    Int × List (Reg × Nat) :=
  if !o.setup_ok then (-1, [])
  else if o.secure then (-1, [])
  else
    let r := ip_ecc_set_breakpoint addr id
    if r.1 ≠ 0 then (-1, r.2) else (0, r.2)

/-- Field `IPECC_W_ATK_NOT_ALWAYS_ADD` (driver line 330). -/
def IPECC_W_ATK_NOT_ALWAYS_ADD : Nat := 1

/-- Field `IPECC_W_ATK_NO_COLLISION_CR` (driver line 331). -/
def IPECC_W_ATK_NO_COLLISION_CR : Nat := 1 <<< 4

/-- Field `IPECC_W_ATK_NO_NNRND_SF` (driver line 334). -/
def IPECC_W_ATK_NO_NNRND_SF : Nat := 1

/-- Value written by `IPECC_ATTACK_SET_HW_CFG(naive, nocollisioncr)`
(driver lines 1416-1421) to `W_ATTACK_CFG_0`. -/
def IPECC_ATTACK_SET_HW_CFG_val (naive nocollisioncr : Bool) : Nat :=
  (cond naive IPECC_W_ATK_NOT_ALWAYS_ADD 0) |||
    (cond nocollisioncr IPECC_W_ATK_NO_COLLISION_CR 0)

/-- Model of `ip_ecc_attack_set_cfg_0` (driver lines 5108-5136): gated on
the IP being halted or idle, then one write to `W_ATTACK_CFG_0`. -/
def ip_ecc_attack_set_cfg_0 (o : DbgOracle) (naive nocollisioncr : Bool) :
    Int × List (Reg × Nat) :=
  if !o.halted && o.busy then (-1, [])
  else (0, [(Reg.W_ATTACK_CFG_0, IPECC_ATTACK_SET_HW_CFG_val naive nocollisioncr)])

/-- Model of `ip_ecc_disable_aximsk` (driver lines 3605-3629): gated on the
IP being halted or idle, then one write of `IPECC_W_DBG_CFG_AXIMSK_DIS`
(value 0) to `W_DBG_CFG_AXIMSK`. -/
def ip_ecc_disable_aximsk (o : DbgOracle) : Int × List (Reg × Nat) :=
  if !o.halted && o.busy then (-1, [])
  else (0, [(Reg.W_DBG_CFG_AXIMSK, 0)])

/-- Model of `ip_ecc_attack_enable_nnrndsf` (driver lines 5140-5163):
gated, then writes 0 to `W_ATTACK_CFG_1`. -/
def ip_ecc_attack_enable_nnrndsf (o : DbgOracle) : Int × List (Reg × Nat) :=
  if !o.halted && o.busy then (-1, [])
  else (0, [(Reg.W_ATTACK_CFG_1, 0)])

/-- Model of `ip_ecc_attack_disable_nnrndsf` (driver lines 5167-5190):
gated, then writes `IPECC_W_ATK_NO_NNRND_SF` to `W_ATTACK_CFG_1`. -/
def ip_ecc_attack_disable_nnrndsf (o : DbgOracle) : Int × List (Reg × Nat) :=
  if !o.halted && o.busy then (-1, [])
  else (0, [(Reg.W_ATTACK_CFG_1, IPECC_W_ATK_NO_NNRND_SF)])

/-- Modelled from the spec: microcode address `DEBUG_ECC_IRAM_RANDOM_PHI0_ADDR`,
exported from the VHDL source through a header not under `src/`; the value
is the one recorded in the driver's inline comment at line 6538. -/
def DEBUG_ECC_IRAM_RANDOM_PHI0_ADDR : Nat := 0x04c

/-- Modelled from the spec: microcode address (driver comment, line 6539). -/
def DEBUG_ECC_IRAM_RANDOM_PHI1_ADDR : Nat := 0x04d

/-- Modelled from the spec: microcode address (driver comment, line 6541). -/
def DEBUG_ECC_IRAM_SAMPLE0_KAPLSB_ADDR : Nat := 0x073

/-- Modelled from the spec: microcode address (driver comment, line 6542). -/
def DEBUG_ECC_IRAM_SAMPLE1_KAPLSB_ADDR : Nat := 0x074

/-- Modelled from the spec: microcode address (driver comment, line 6544). -/
def DEBUG_ECC_IRAM_JUMP_DOUBLE_ADDR : Nat := 0x083

/-- Modelled from the spec: microcode address (driver comment, line 6534). -/
def ECC_IRAM_ZDBL_NOT_ALWAYS_ADDR : Nat := 0x1fa

/-- Modelled from the spec: microcode address (driver comment, line 6582). -/
def DEBUG_ECC_IRAM_DOZDBL_ADDR : Nat := 0x19b

/-- Model of `hw_driver_attack_set_level` (driver lines 6494-6670): after
`driver_setup()` and the level range check, each of the four levels runs a
fixed sequence of countermeasure-register writes and single-opcode patches,
OR-accumulating the sub-results into `res` and failing at the end if any
sub-call failed.  Note that, unlike the `_DBG` entry points, this function
never tests `IPECC_IS_HW_SECURE()`. -/
def hw_driver_attack_set_level (o : DbgOracle) (level : Int) :
    Int × List (Reg × Nat) :=
  if !o.setup_ok then (-1, [])
  else if level ≠ 0 ∧ level ≠ 1 ∧ level ≠ 2 ∧ level ≠ 3 then (-1, [])
  else if level = 0 then
    let jumpop := 0x21000000 + ECC_IRAM_ZDBL_NOT_ALWAYS_ADDR
    let s1 := ip_ecc_attack_set_cfg_0 o true false
    let s2 := ip_ecc_patch_one_opcode o.halted o.busy o.nbopcodes
      DEBUG_ECC_IRAM_RANDOM_PHI0_ADDR 0 0x51007fea 1
    let s3 := ip_ecc_patch_one_opcode o.halted o.busy o.nbopcodes
      DEBUG_ECC_IRAM_RANDOM_PHI1_ADDR 0 0x51007feb 1
    let s4 := ip_ecc_patch_one_opcode o.halted o.busy o.nbopcodes
      DEBUG_ECC_IRAM_SAMPLE0_KAPLSB_ADDR 0 0x1400300c 1
    let s5 := ip_ecc_patch_one_opcode o.halted o.busy o.nbopcodes
      DEBUG_ECC_IRAM_SAMPLE1_KAPLSB_ADDR 0 0x1480340d 1
    let s6 := ip_ecc_patch_one_opcode o.halted o.busy o.nbopcodes
      DEBUG_ECC_IRAM_JUMP_DOUBLE_ADDR 0 jumpop 1
    let s7 := ip_ecc_disable_aximsk o
    let s8 := ip_ecc_attack_disable_nnrndsf o
    let ws := s1.2 ++ s2.2 ++ s3.2 ++ s4.2 ++ s5.2 ++ s6.2 ++ s7.2 ++ s8.2
    if s1.1 ≠ 0 ∨ s2.1 ≠ 0 ∨ s3.1 ≠ 0 ∨ s4.1 ≠ 0 ∨ s5.1 ≠ 0 ∨ s6.1 ≠ 0 ∨
        s7.1 ≠ 0 ∨ s8.1 ≠ 0 then (-1, ws)
    else (0, ws)
  else if level = 1 then
    let jumpop := 0x26000000 + DEBUG_ECC_IRAM_DOZDBL_ADDR
    let s1 := ip_ecc_disable_aximsk o
    let s2 := ip_ecc_attack_set_cfg_0 o false true
    let s3 := ip_ecc_patch_one_opcode o.halted o.busy o.nbopcodes
      DEBUG_ECC_IRAM_RANDOM_PHI0_ADDR 0 0x51007fea 1
    let s4 := ip_ecc_patch_one_opcode o.halted o.busy o.nbopcodes
      DEBUG_ECC_IRAM_RANDOM_PHI1_ADDR 0 0x51007feb 1
    let s5 := ip_ecc_patch_one_opcode o.halted o.busy o.nbopcodes
      DEBUG_ECC_IRAM_SAMPLE0_KAPLSB_ADDR 0 0x16003022 1
    let s6 := ip_ecc_patch_one_opcode o.halted o.busy o.nbopcodes
      DEBUG_ECC_IRAM_SAMPLE1_KAPLSB_ADDR 0 0x00000000 1
    let s7 := ip_ecc_patch_one_opcode o.halted o.busy o.nbopcodes
      DEBUG_ECC_IRAM_JUMP_DOUBLE_ADDR 0 jumpop 1
    let s8 := ip_ecc_attack_enable_nnrndsf o
    let ws := s1.2 ++ s2.2 ++ s3.2 ++ s4.2 ++ s5.2 ++ s6.2 ++ s7.2 ++ s8.2
    if s1.1 ≠ 0 ∨ s2.1 ≠ 0 ∨ s3.1 ≠ 0 ∨ s4.1 ≠ 0 ∨ s5.1 ≠ 0 ∨ s6.1 ≠ 0 ∨
        s7.1 ≠ 0 ∨ s8.1 ≠ 0 then (-1, ws)
    else (0, ws)
  else if level = 2 then
    let jumpop := 0x26000000 + DEBUG_ECC_IRAM_DOZDBL_ADDR
    let s1 := ip_ecc_disable_aximsk o
    let s2 := ip_ecc_attack_set_cfg_0 o false true
    let s3 := ip_ecc_patch_one_opcode o.halted o.busy o.nbopcodes
      DEBUG_ECC_IRAM_RANDOM_PHI0_ADDR 0 0x1500000a 1
    let s4 := ip_ecc_patch_one_opcode o.halted o.busy o.nbopcodes
      DEBUG_ECC_IRAM_RANDOM_PHI1_ADDR 0 0x1500000b 1
    let s5 := ip_ecc_patch_one_opcode o.halted o.busy o.nbopcodes
      DEBUG_ECC_IRAM_SAMPLE0_KAPLSB_ADDR 0 0x16003022 1
    let s6 := ip_ecc_patch_one_opcode o.halted o.busy o.nbopcodes
      DEBUG_ECC_IRAM_SAMPLE1_KAPLSB_ADDR 0 0x00000000 1
    let s7 := ip_ecc_patch_one_opcode o.halted o.busy o.nbopcodes
      DEBUG_ECC_IRAM_JUMP_DOUBLE_ADDR 0 jumpop 1
    let ws := s1.2 ++ s2.2 ++ s3.2 ++ s4.2 ++ s5.2 ++ s6.2 ++ s7.2
    if s1.1 ≠ 0 ∨ s2.1 ≠ 0 ∨ s3.1 ≠ 0 ∨ s4.1 ≠ 0 ∨ s5.1 ≠ 0 ∨ s6.1 ≠ 0 ∨
        s7.1 ≠ 0 then (-1, ws)
    else (0, ws)
  else
    let jumpop := 0x26000000 + DEBUG_ECC_IRAM_DOZDBL_ADDR
    let s1 := ip_ecc_disable_aximsk o
    let s2 := ip_ecc_attack_set_cfg_0 o false false
    let s3 := ip_ecc_patch_one_opcode o.halted o.busy o.nbopcodes
      DEBUG_ECC_IRAM_RANDOM_PHI0_ADDR 0 0x1500000a 1
    let s4 := ip_ecc_patch_one_opcode o.halted o.busy o.nbopcodes
      DEBUG_ECC_IRAM_RANDOM_PHI1_ADDR 0 0x1500000b 1
    let s5 := ip_ecc_patch_one_opcode o.halted o.busy o.nbopcodes
      DEBUG_ECC_IRAM_SAMPLE0_KAPLSB_ADDR 0 0x16003022 1
    let s6 := ip_ecc_patch_one_opcode o.halted o.busy o.nbopcodes
      DEBUG_ECC_IRAM_SAMPLE1_KAPLSB_ADDR 0 0x00000000 1
    let s7 := ip_ecc_patch_one_opcode o.halted o.busy o.nbopcodes
      DEBUG_ECC_IRAM_JUMP_DOUBLE_ADDR 0 jumpop 1
    let ws := s1.2 ++ s2.2 ++ s3.2 ++ s4.2 ++ s5.2 ++ s6.2 ++ s7.2
    if s1.1 ≠ 0 ∨ s2.1 ≠ 0 ∨ s3.1 ≠ 0 ∨ s4.1 ≠ 0 ∨ s5.1 ≠ 0 ∨ s6.1 ≠ 0 ∨
        s7.1 ≠ 0 then (-1, ws)
    else (0, ws)

/-! Z-remask configuration, curve/`nn` configuration. -/

/-- Field `IPECC_W_ZREMASK_EN` (driver line 191). -/
def IPECC_W_ZREMASK_EN : Nat := 1

/-- Value written by `IPECC_ENABLE_ZREMASK(zremask_period)` (driver lines
746-754) to `W_ZREMASK`: enable bit plus the 16-bit period field at
position 16. -/
def IPECC_ENABLE_ZREMASK_val (zremask_period : Nat) : Nat :=
  IPECC_W_ZREMASK_EN ||| ((zremask_period &&& 0xffff) <<< 16)

/-- Model of `ip_ecc_enable_zremask_and_set_period` (driver lines
2150-2181): for `period = 0` only a log message is printed (no
configuration write); otherwise `IPECC_ENABLE_ZREMASK(period - 1)` is
issued.  In both cases the function then checks the error field of
`statusAfter` (the `R_STATUS` value `ip_ecc_check_error` reads) and
returns -1 exactly when it is non-zero.  Result: return code and the
value written to `W_ZREMASK` (`none` if no write). -/
def ip_ecc_enable_zremask_and_set_period (period : Nat) (statusAfter : Nat) :
    Int × Option Nat :=
  let wr := if period = 0 then none
    else some (IPECC_ENABLE_ZREMASK_val (period - 1))
  if IPECC_GET_ERROR statusAfter ≠ 0 then (-1, wr) else (0, wr)

/-- Model of `hw_driver_enable_zremask_and_set_period` (driver lines
7224-7237): `driver_setup()` then the low-level routine. -/
def hw_driver_enable_zremask_and_set_period (setup_ok : Bool) (period : Nat)
    (statusAfter : Nat) : Int × Option Nat :=
  if !setup_ok then (-1, none)
  else ip_ecc_enable_zremask_and_set_period period statusAfter

/-- Oracle for `hw_driver_set_curve`: the capability values read from
hardware, the `R_STATUS` value seen by the error check after the `nn`
write, and the outcomes of the four big-number writes. -/
structure CurveOracle where
  setup_ok : Bool
  nn_max : Nat
  nn_dyn : Bool
  statusAfter : Nat
  write_p_ok : Bool
  write_a_ok : Bool
  write_b_ok : Bool
  write_q_ok : Bool
deriving Repr, DecidableEq

/-- Value written by `IPECC_SET_NN_SIZE(sz)` (driver lines 678-681) to
`W_PRIME_SIZE`: the size masked to the 16-bit field `IPECC_W_PRIME_SIZE_MSK`
at position 0. -/
def IPECC_SET_NN_SIZE_val (sz : Nat) : Nat :=
  (sz &&& 0xffff) <<< 0

/-- Model of `ip_ecc_set_nn_bit_size` (driver lines 1995-2024): fails when
`bit_sz` exceeds `IPECC_GET_NN_MAX()`; otherwise, when dynamic `nn` is
supported, writes `IPECC_SET_NN_SIZE(bit_sz)` and then checks the error
field; when dynamic `nn` is unsupported nothing is written.  Result:
return code and the value written to `W_PRIME_SIZE` (`none` if no write). -/
def ip_ecc_set_nn_bit_size (o : CurveOracle) (bit_sz : Nat) : Int × Option Nat :=
  if bit_sz > o.nn_max then (-1, none)
  else if o.nn_dyn then
    if IPECC_GET_ERROR o.statusAfter ≠ 0 then (-1, some (IPECC_SET_NN_SIZE_val bit_sz))
    else (0, some (IPECC_SET_NN_SIZE_val bit_sz))
  else (0, none)

/-- Model of `hw_driver_set_curve` (driver lines 7106-7143), restricted to
the parts relevant to the `nn` configuration: the byte sizes `p_sz`, `q_sz`
are C `uint32_t` values and `8 * p_sz` / `8 * q_sz` are computed in 32-bit
arithmetic (hence the `% 2^32`); the subsequent writes of `p`, `a`, `b`,
`q` are abstracted by their oracle outcomes.  Result: return code and the
value written to `W_PRIME_SIZE` (`none` if no write). -/
def hw_driver_set_curve (o : CurveOracle) (p_sz q_sz : Nat) : Int × Option Nat :=
  if !o.setup_ok then (-1, none)
  else
    let r := if p_sz > q_sz then ip_ecc_set_nn_bit_size o ((8 * p_sz) % 2 ^ 32)
      else ip_ecc_set_nn_bit_size o ((8 * q_sz) % 2 ^ 32)
    if r.1 ≠ 0 then (-1, r.2)
    else if !o.write_p_ok then (-1, r.2)
    else if !o.write_a_ok then (-1, r.2)
    else if !o.write_b_ok then (-1, r.2)
    else if !o.write_q_ok then (-1, r.2)
    else (0, r.2)

/-! Point operations `hw_driver_neg` / `hw_driver_dbl` / `hw_driver_add`. -/

/-- Logical big-number slots of the point registers. -/
inductive Slot where
  | R0_X
  | R0_Y
  | R1_X
  | R1_Y
deriving Repr, DecidableEq

/-- Oracle for the point-operation models: `nn_bits` is
`ip_ecc_get_nn_bit_size()`; the `Bool` fields are the outcomes of the
corresponding hardware sub-calls (`ip_ecc_write_bignum` per coordinate,
`ip_ecc_set_r{0,1}_inf`, `ip_ecc_exec_command`, `ip_ecc_read_bignum` per
result coordinate).  `ip_ecc_get_r{0,1}_inf` always return 0 in the source
and so have no outcome here. -/
structure PointOpOracle where
  setup_ok : Bool
  nn_bits : Nat
  w_r0x : Bool
  w_r0y : Bool
  w_r1x : Bool
  w_r1y : Bool
  set_r0_ok : Bool
  set_r1_ok : Bool
  exec_ok : Bool
  read_x_ok : Bool
  read_y_ok : Bool
deriving Repr, DecidableEq

/-- Result of a point-operation model: the C return code, the final values
of the caller's two output-size variables, the big-number writes attempted
(in order), the big-number reads attempted (in order), and whether the
point command was triggered. -/
structure PointOpResult where
  ret : Int
  out_x_sz : Nat
  out_y_sz : Nat
  writes : List Slot
  reads : List Slot
  execd : Bool
deriving Repr, DecidableEq

/-- Model of `hw_driver_neg` (driver lines 7565-7620): writes the source
point into `R0`, restores the null flags, executes the command, checks the
caller's output capacities against `nn_sz = ceil(nn/8)`, sets both output
sizes to `nn_sz`, and reads the result back from `R1`. -/
def hw_driver_neg (o : PointOpOracle) (out_x_sz out_y_sz : Nat) : PointOpResult :=
  if !o.setup_ok then ⟨-1, out_x_sz, out_y_sz, [], [], false⟩
  else if !o.w_r0x then ⟨-1, out_x_sz, out_y_sz, [.R0_X], [], false⟩
  else if !o.w_r0y then ⟨-1, out_x_sz, out_y_sz, [.R0_X, .R0_Y], [], false⟩
  else if !o.set_r0_ok then ⟨-1, out_x_sz, out_y_sz, [.R0_X, .R0_Y], [], false⟩
  else if !o.set_r1_ok then ⟨-1, out_x_sz, out_y_sz, [.R0_X, .R0_Y], [], false⟩
  else if !o.exec_ok then ⟨-1, out_x_sz, out_y_sz, [.R0_X, .R0_Y], [], true⟩
  else
    let nn_sz := ip_ecc_nn_bytes_from_bits_sz o.nn_bits
    if out_x_sz < nn_sz ∨ out_y_sz < nn_sz then
      ⟨-1, out_x_sz, out_y_sz, [.R0_X, .R0_Y], [], true⟩
    else if !o.read_x_ok then ⟨-1, nn_sz, nn_sz, [.R0_X, .R0_Y], [.R1_X], true⟩
    else if !o.read_y_ok then ⟨-1, nn_sz, nn_sz, [.R0_X, .R0_Y], [.R1_X, .R1_Y], true⟩
    else ⟨0, nn_sz, nn_sz, [.R0_X, .R0_Y], [.R1_X, .R1_Y], true⟩

/-- Model of `hw_driver_dbl` (driver lines 7631-7686): identical structure
to `hw_driver_neg` with the `DBL` command. -/
def hw_driver_dbl (o : PointOpOracle) (out_x_sz out_y_sz : Nat) : PointOpResult :=
  if !o.setup_ok then ⟨-1, out_x_sz, out_y_sz, [], [], false⟩
  else if !o.w_r0x then ⟨-1, out_x_sz, out_y_sz, [.R0_X], [], false⟩
  else if !o.w_r0y then ⟨-1, out_x_sz, out_y_sz, [.R0_X, .R0_Y], [], false⟩
  else if !o.set_r0_ok then ⟨-1, out_x_sz, out_y_sz, [.R0_X, .R0_Y], [], false⟩
  else if !o.set_r1_ok then ⟨-1, out_x_sz, out_y_sz, [.R0_X, .R0_Y], [], false⟩
  else if !o.exec_ok then ⟨-1, out_x_sz, out_y_sz, [.R0_X, .R0_Y], [], true⟩
  else
    let nn_sz := ip_ecc_nn_bytes_from_bits_sz o.nn_bits
    if out_x_sz < nn_sz ∨ out_y_sz < nn_sz then
      ⟨-1, out_x_sz, out_y_sz, [.R0_X, .R0_Y], [], true⟩
    else if !o.read_x_ok then ⟨-1, nn_sz, nn_sz, [.R0_X, .R0_Y], [.R1_X], true⟩
    else if !o.read_y_ok then ⟨-1, nn_sz, nn_sz, [.R0_X, .R0_Y], [.R1_X, .R1_Y], true⟩
    else ⟨0, nn_sz, nn_sz, [.R0_X, .R0_Y], [.R1_X, .R1_Y], true⟩

/-- Model of `hw_driver_add` (driver lines 7698-7761): writes the first
source point into `R0` and the second into `R1`, restores the null flags,
executes `ADD`, and reads the result back from `R1` as in `hw_driver_neg`. -/
def hw_driver_add (o : PointOpOracle) (out_x_sz out_y_sz : Nat) : PointOpResult :=
  if !o.setup_ok then ⟨-1, out_x_sz, out_y_sz, [], [], false⟩
  else if !o.w_r0x then ⟨-1, out_x_sz, out_y_sz, [.R0_X], [], false⟩
  else if !o.w_r0y then ⟨-1, out_x_sz, out_y_sz, [.R0_X, .R0_Y], [], false⟩
  else if !o.w_r1x then ⟨-1, out_x_sz, out_y_sz, [.R0_X, .R0_Y, .R1_X], [], false⟩
  else if !o.w_r1y then
    ⟨-1, out_x_sz, out_y_sz, [.R0_X, .R0_Y, .R1_X, .R1_Y], [], false⟩
  else if !o.set_r0_ok then
    ⟨-1, out_x_sz, out_y_sz, [.R0_X, .R0_Y, .R1_X, .R1_Y], [], false⟩
  else if !o.set_r1_ok then
    ⟨-1, out_x_sz, out_y_sz, [.R0_X, .R0_Y, .R1_X, .R1_Y], [], false⟩
  else if !o.exec_ok then
    ⟨-1, out_x_sz, out_y_sz, [.R0_X, .R0_Y, .R1_X, .R1_Y], [], true⟩
  else
    let nn_sz := ip_ecc_nn_bytes_from_bits_sz o.nn_bits
    if out_x_sz < nn_sz ∨ out_y_sz < nn_sz then
      ⟨-1, out_x_sz, out_y_sz, [.R0_X, .R0_Y, .R1_X, .R1_Y], [], true⟩
    else if !o.read_x_ok then
      ⟨-1, nn_sz, nn_sz, [.R0_X, .R0_Y, .R1_X, .R1_Y], [.R1_X], true⟩
    else if !o.read_y_ok then
      ⟨-1, nn_sz, nn_sz, [.R0_X, .R0_Y, .R1_X, .R1_Y], [.R1_X, .R1_Y], true⟩
    else ⟨0, nn_sz, nn_sz, [.R0_X, .R0_Y, .R1_X, .R1_Y], [.R1_X, .R1_Y], true⟩

/-! Scalar multiplication `hw_driver_mul`. -/

/-- Model of `ip_ecc_unmask_with_token` (driver lines 2430-2450): fails
when the two sizes differ, otherwise XORs the first `a_sz` bytes of the
two buffers. -/
def ip_ecc_unmask_with_token (in_a : List Nat) (a_sz : Nat) (in_tok : List Nat)
    (t_sz : Nat) : Option (List Nat) :=
  if a_sz ≠ t_sz then none
  else some ((List.range a_sz).map fun i => in_a.getD i 0 ^^^ in_tok.getD i 0)

/-- The sub-steps of `hw_driver_mul`, in program order, used to record how
far a run proceeded. -/
inductive MulStep where
  | setup
  | nnCheck
  | getR0Inf
  | getR1Inf
  | getToken
  | writeScalar
  | writeR1X
  | writeR1Y
  | setR0Inf
  | setR1Inf
  | execKP
  | sizeCheck
  | readR1X
  | readR1Y
  | unmaskX
  | unmaskY
  | clearToken
deriving Repr, DecidableEq

/-- Oracle for `hw_driver_mul`: outcomes of the hardware sub-calls, the
current `nn` bit width, the token bytes the IP delivers, and the masked
result coordinates the IP delivers on readback. -/
structure MulOracle where
  setup_ok : Bool
  nn_bits : Nat
  token_ok : Bool
  token_data : List Nat
  write_scalar_ok : Bool
  write_x_ok : Bool
  write_y_ok : Bool
  set_r0_ok : Bool
  set_r1_ok : Bool
  exec_ok : Bool
  read_x_ok : Bool
  read_y_ok : Bool
  r1x_data : List Nat
  r1y_data : List Nat
deriving Repr, DecidableEq

/-- Result of the `hw_driver_mul` model: the C return code, the final
values of the caller's output-size variables and output buffers, and the
sub-steps attempted (in order; on failure the failing step is last). -/
structure MulResult where
  ret : Int
  out_x_sz : Nat
  out_y_sz : Nat
  out_x : List Nat
  out_y : List Nat
  steps : List MulStep
deriving Repr, DecidableEq

/-- Model of `hw_driver_mul` (driver lines 7772-7883).  The caller's output
buffers and size variables are passed in with their initial contents;
a successful `ip_ecc_read_bignum` replaces a buffer with the bytes the IP
delivered (a failed one is modelled as leaving it unchanged).  Note the
output-size variables are assigned `nn_sz` before the readback, and the
unmask calls XOR the buffers with the token. -/
def hw_driver_mul (o : MulOracle) (out_x : List Nat) (out_x_sz : Nat)
    (out_y : List Nat) (out_y_sz : Nat) : MulResult :=
  if !o.setup_ok then ⟨-1, out_x_sz, out_y_sz, out_x, out_y, [.setup]⟩
  else
    let nn_sz := ip_ecc_nn_bytes_from_bits_sz o.nn_bits
    if nn_sz > 4096 then
      ⟨-1, out_x_sz, out_y_sz, out_x, out_y, [.setup, .nnCheck]⟩
    else if !o.token_ok then
      ⟨-1, out_x_sz, out_y_sz, out_x, out_y,
        [.setup, .nnCheck, .getR0Inf, .getR1Inf, .getToken]⟩
    else if !o.write_scalar_ok then
      ⟨-1, out_x_sz, out_y_sz, out_x, out_y,
        [.setup, .nnCheck, .getR0Inf, .getR1Inf, .getToken, .writeScalar]⟩
    else if !o.write_x_ok then
      ⟨-1, out_x_sz, out_y_sz, out_x, out_y,
        [.setup, .nnCheck, .getR0Inf, .getR1Inf, .getToken, .writeScalar, .writeR1X]⟩
    else if !o.write_y_ok then
      ⟨-1, out_x_sz, out_y_sz, out_x, out_y,
        [.setup, .nnCheck, .getR0Inf, .getR1Inf, .getToken, .writeScalar, .writeR1X,
         .writeR1Y]⟩
    else if !o.set_r0_ok then
      ⟨-1, out_x_sz, out_y_sz, out_x, out_y,
        [.setup, .nnCheck, .getR0Inf, .getR1Inf, .getToken, .writeScalar, .writeR1X,
         .writeR1Y, .setR0Inf]⟩
    else if !o.set_r1_ok then
      ⟨-1, out_x_sz, out_y_sz, out_x, out_y,
        [.setup, .nnCheck, .getR0Inf, .getR1Inf, .getToken, .writeScalar, .writeR1X,
         .writeR1Y, .setR0Inf, .setR1Inf]⟩
    else if !o.exec_ok then
      ⟨-1, out_x_sz, out_y_sz, out_x, out_y,
        [.setup, .nnCheck, .getR0Inf, .getR1Inf, .getToken, .writeScalar, .writeR1X,
         .writeR1Y, .setR0Inf, .setR1Inf, .execKP]⟩
    else if out_x_sz < nn_sz ∨ out_y_sz < nn_sz then
      ⟨-1, out_x_sz, out_y_sz, out_x, out_y,
        [.setup, .nnCheck, .getR0Inf, .getR1Inf, .getToken, .writeScalar, .writeR1X,
         .writeR1Y, .setR0Inf, .setR1Inf, .execKP, .sizeCheck]⟩
    else if !o.read_x_ok then
      ⟨-1, nn_sz, nn_sz, out_x, out_y,
        [.setup, .nnCheck, .getR0Inf, .getR1Inf, .getToken, .writeScalar, .writeR1X,
         .writeR1Y, .setR0Inf, .setR1Inf, .execKP, .sizeCheck, .readR1X]⟩
    else if !o.read_y_ok then
      ⟨-1, nn_sz, nn_sz, o.r1x_data, out_y,
        [.setup, .nnCheck, .getR0Inf, .getR1Inf, .getToken, .writeScalar, .writeR1X,
         .writeR1Y, .setR0Inf, .setR1Inf, .execKP, .sizeCheck, .readR1X, .readR1Y]⟩
    else
      match ip_ecc_unmask_with_token o.r1x_data nn_sz o.token_data nn_sz with
      | none =>
        ⟨-1, nn_sz, nn_sz, o.r1x_data, o.r1y_data,
          [.setup, .nnCheck, .getR0Inf, .getR1Inf, .getToken, .writeScalar, .writeR1X,
           .writeR1Y, .setR0Inf, .setR1Inf, .execKP, .sizeCheck, .readR1X, .readR1Y,
           .unmaskX]⟩
      | some ux =>
        match ip_ecc_unmask_with_token o.r1y_data nn_sz o.token_data nn_sz with
        | none =>
          ⟨-1, nn_sz, nn_sz, ux, o.r1y_data,
            [.setup, .nnCheck, .getR0Inf, .getR1Inf, .getToken, .writeScalar,
             .writeR1X, .writeR1Y, .setR0Inf, .setR1Inf, .execKP, .sizeCheck,
             .readR1X, .readR1Y, .unmaskX, .unmaskY]⟩
        | some uy =>
          ⟨0, nn_sz, nn_sz, ux, uy,
            [.setup, .nnCheck, .getR0Inf, .getR1Inf, .getToken, .writeScalar,
             .writeR1X, .writeR1Y, .setR0Inf, .setR1Inf, .execKP, .sizeCheck,
             .readR1X, .readR1Y, .unmaskX, .unmaskY, .clearToken]⟩

/-- The sub-steps of `hw_driver_mul` that precede the output-size check:
all of them succeed exactly when this predicate's flags are set (the two
`ip_ecc_get_r{0,1}_inf` calls cannot fail). -/
def mulPreOk (o : MulOracle) : Bool :=
  o.setup_ok && decide (ip_ecc_nn_bytes_from_bits_sz o.nn_bits ≤ 4096) &&
    o.token_ok && o.write_scalar_ok && o.write_x_ok && o.write_y_ok &&
    o.set_r0_ok && o.set_r1_ok && o.exec_ok

theorem lor_shiftLeft_eq_add {x y k : Nat} (h : x < 2 ^ k) :
    x ||| y <<< k = x + y * 2 ^ k := by
  induction k generalizing x y with
  | zero =>
    have hx : x = 0 := by omega
    subst hx
    simp [Nat.shiftLeft_eq]
  | succ k ih =>
    have h2 : (2:Nat) ^ (k+1) = 2 * 2 ^ k := by ring
    have hx2 : x / 2 < 2 ^ k := by omega
    have hsh : y <<< (k+1) / 2 = y <<< k := by
      rw [Nat.shiftLeft_eq, Nat.shiftLeft_eq, h2,
        show y * (2 * 2 ^ k) = y * 2 ^ k * 2 by ring]
      exact Nat.mul_div_cancel _ (by norm_num)
    have hy2 : (y <<< (k+1)) % 2 = 0 := by
      rw [Nat.shiftLeft_eq, h2, show y * (2 * 2 ^ k) = y * 2 ^ k * 2 by ring]
      simp [Nat.mul_mod_left]
    have hor := Nat.or_mod_two_eq_one (a := x) (b := y <<< (k+1))
    have htwo : (x ||| y <<< (k+1)) % 2 = 0 ∨ (x ||| y <<< (k+1)) % 2 = 1 :=
      Nat.mod_two_eq_zero_or_one _
    have hmod : (x ||| y <<< (k+1)) % 2 = x % 2 := by
      rcases Nat.mod_two_eq_zero_or_one x with h0 | h1
      · rcases htwo with ha | ha
        · omega
        · rcases hor.mp ha with hb | hb <;> omega
      · have := hor.mpr (Or.inl h1)
        omega
    have hdiv : (x ||| y <<< (k+1)) / 2 = x / 2 ||| y <<< k := by
      rw [Nat.or_div_two, hsh]
    have key := Nat.div_add_mod (x ||| y <<< (k+1)) 2
    rw [hdiv, hmod, ih hx2] at key
    have hx' := Nat.div_add_mod x 2
    have hz : y * 2 ^ (k+1) = 2 * (y * 2 ^ k) := by ring
    omega

theorem getD_lt_256 {a : List Nat} (hb : ∀ x ∈ a, x < 256) (i : Nat) :
    a.getD i 0 < 256 := by
  rcases Nat.lt_or_ge i a.length with h | h
  · rw [List.getD_eq_getElem?_getD, List.getElem?_eq_getElem h]
    exact hb _ (List.getElem_mem h)
  · rw [List.getD_eq_getElem?_getD, List.getElem?_eq_none (by omega)]
    norm_num

theorem byteAt_lt_256 {a : List Nat} (hb : ∀ x ∈ a, x < 256) (idx k : Nat) :
    byteAt a idx k < 256 := by
  unfold byteAt
  split
  · exact getD_lt_256 hb _
  · norm_num

theorem and_255_eq_mod (x : Nat) : x &&& 0xff = x % 256 := by
  have := Nat.and_pow_two_sub_one_eq_mod x 8
  norm_num at this
  exact this

theorem pack4_arith {b0 b1 b2 b3 : Nat} (h0 : b0 < 256) (h1 : b1 < 256) (h2 : b2 < 256) :
    ((b0 ||| b1 <<< 8) ||| b2 <<< 16) ||| b3 <<< 24 = packChunk4 b0 b1 b2 b3 := by
  have p8 : (2:Nat) ^ 8 = 256 := by norm_num
  have p16 : (2:Nat) ^ 16 = 65536 := by norm_num
  have p24 : (2:Nat) ^ 24 = 16777216 := by norm_num
  have e1 : b0 ||| b1 <<< 8 = b0 + b1 * 2 ^ 8 :=
    lor_shiftLeft_eq_add (by omega)
  have e2 : (b0 + b1 * 2 ^ 8) ||| b2 <<< 16 = (b0 + b1 * 2 ^ 8) + b2 * 2 ^ 16 :=
    lor_shiftLeft_eq_add (by omega)
  have e3 : ((b0 + b1 * 2 ^ 8) + b2 * 2 ^ 16) ||| b3 <<< 24 =
      ((b0 + b1 * 2 ^ 8) + b2 * 2 ^ 16) + b3 * 2 ^ 24 :=
    lor_shiftLeft_eq_add (by omega)
  rw [e1, e2, e3]
  unfold packChunk4
  omega

theorem pack3_arith {b0 b1 b2 : Nat} (h0 : b0 < 256) (h1 : b1 < 256) :
    (b0 ||| b1 <<< 8) ||| b2 <<< 16 = packChunk4 b0 b1 b2 0 := by
  have p8 : (2:Nat) ^ 8 = 256 := by norm_num
  have p16 : (2:Nat) ^ 16 = 65536 := by norm_num
  have e1 : b0 ||| b1 <<< 8 = b0 + b1 * 2 ^ 8 :=
    lor_shiftLeft_eq_add (by omega)
  have e2 : (b0 + b1 * 2 ^ 8) ||| b2 <<< 16 = (b0 + b1 * 2 ^ 8) + b2 * 2 ^ 16 :=
    lor_shiftLeft_eq_add (by omega)
  rw [e1, e2]
  unfold packChunk4
  omega

theorem pack2_arith {b0 b1 : Nat} (h0 : b0 < 256) :
    b0 ||| b1 <<< 8 = packChunk4 b0 b1 0 0 := by
  have p8 : (2:Nat) ^ 8 = 256 := by norm_num
  have e1 : b0 ||| b1 <<< 8 = b0 + b1 * 2 ^ 8 :=
    lor_shiftLeft_eq_add (by omega)
  rw [e1]
  unfold packChunk4
  omega

theorem write_bignum_pack_spec (a : List Nat) (hb : ∀ x ∈ a, x < 256) (idx : Nat) :
    write_bignum_pack a 0 idx 0 ipEccWordBytes =
      (packChunk4 (byteAt a idx 0) (byteAt a idx 1) (byteAt a idx 2) (byteAt a idx 3),
       idx - 4, decide (idx < 4)) := by
  have hB : ∀ i, (a[i]?).getD 0 < 256 := fun i =>
    (List.getD_eq_getElem?_getD a i 0) ▸ getD_lt_256 hb i
  match idx with
  | 0 =>
    simp [write_bignum_pack, ipEccWordBytes, byteAt, packChunk4]
  | 1 =>
    simp only [write_bignum_pack, ipEccWordBytes]
    norm_num [byteAt]
    rw [pack2_arith (hB 1)]
  | 2 =>
    simp only [write_bignum_pack, ipEccWordBytes]
    norm_num [byteAt]
    rw [pack3_arith (hB 2) (hB 1)]
  | 3 =>
    simp only [write_bignum_pack, ipEccWordBytes]
    norm_num [byteAt]
    rw [pack4_arith (hB 3) (hB 2) (hB 1)]
  | m + 4 =>
    simp only [write_bignum_pack, ipEccWordBytes]
    norm_num [byteAt]
    rw [show m + 4 - 2 = m + 2 by omega, show m + 4 - 3 = m + 1 by omega]
    rw [pack4_arith (hB (m+4)) (hB (m+3)) (hB (m+2))]

theorem write_bignum_loop_end (a : List Nat) : ∀ n idx,
    write_bignum_loop a n idx true = List.replicate n 0 := by
  intro n
  induction n with
  | zero => intro idx; simp [write_bignum_loop]
  | succ n ih => intro idx; simp [write_bignum_loop, ih, List.replicate]

theorem write_bignum_loop_spec (a : List Nat) (hb : ∀ x ∈ a, x < 256) :
    ∀ n idx, write_bignum_loop a n idx false = specWords a idx n := by
  intro n
  induction n with
  | zero => intro idx; simp [write_bignum_loop, specWords]
  | succ n ih =>
    intro idx
    rw [write_bignum_loop]
    simp only [Bool.false_eq_true, if_false]
    rw [write_bignum_pack_spec a hb idx]
    by_cases h4 : idx < 4
    · simp [specWords, h4, write_bignum_loop_end]
    · simp [specWords, h4, ih]

theorem read_bignum_loop_end : ∀ (n : Nat) (ws buf : List Nat) (idx : Nat),
    read_bignum_loop n ws buf idx true = buf := by
  intro n
  induction n with
  | zero => intro ws buf idx; simp [read_bignum_loop]
  | succ n ih => intro ws buf idx; simp [read_bignum_loop, ih]

theorem getD_set_lt {l : List Nat} {j : Nat} (hj : j < l.length) (v i : Nat) :
    (l.set j v).getD i 0 = if i = j then v else l.getD i 0 := by
  rw [List.getD_eq_getElem?_getD, List.getD_eq_getElem?_getD, List.getElem?_set]
  by_cases h : i = j
  · simp [h, hj]
  · simp [h, Ne.symm h]

theorem read_bignum_scatter_spec (w : Nat) (buf : List Nat) (idx : Nat) (h : idx < buf.length) :
    (read_bignum_scatter w buf idx 0 ipEccWordBytes).2 = (idx - 4, decide (idx < 4)) ∧
    (read_bignum_scatter w buf idx 0 ipEccWordBytes).1.length = buf.length ∧
    ∀ i, (read_bignum_scatter w buf idx 0 ipEccWordBytes).1.getD i 0 =
      if i ≤ idx ∧ idx ≤ i + 3 then (w >>> (8 * (idx - i))) &&& 0xff else buf.getD i 0 := by
  match idx with
  | 0 =>
    have e : read_bignum_scatter w buf 0 0 ipEccWordBytes =
        (buf.set 0 ((w >>> (8*0)) &&& 0xff), 0, true) := by
      simp [read_bignum_scatter, ipEccWordBytes]
    rw [e]
    refine ⟨by norm_num, by simp, ?_⟩
    intro i
    rw [getD_set_lt h]
    by_cases h0 : i = 0
    · subst h0; norm_num
    · rw [if_neg h0, if_neg (by omega)]
  | 1 =>
    have e : read_bignum_scatter w buf 1 0 ipEccWordBytes =
        ((buf.set 1 ((w >>> (8*0)) &&& 0xff)).set 0 ((w >>> (8*1)) &&& 0xff), 0, true) := by
      simp [read_bignum_scatter, ipEccWordBytes]
    rw [e]
    refine ⟨by norm_num, by simp, ?_⟩
    intro i
    rw [getD_set_lt (by simp; omega), getD_set_lt (by omega)]
    by_cases h0 : i = 0
    · subst h0; norm_num
    · by_cases h1 : i = 1
      · subst h1; norm_num
      · rw [if_neg h0, if_neg h1, if_neg (by omega)]
  | 2 =>
    have e : read_bignum_scatter w buf 2 0 ipEccWordBytes =
        (((buf.set 2 ((w >>> (8*0)) &&& 0xff)).set 1 ((w >>> (8*1)) &&& 0xff)).set 0
          ((w >>> (8*2)) &&& 0xff), 0, true) := by
      simp [read_bignum_scatter, ipEccWordBytes]
    rw [e]
    refine ⟨by norm_num, by simp, ?_⟩
    intro i
    rw [getD_set_lt (by simp; omega), getD_set_lt (by simp; omega), getD_set_lt (by omega)]
    by_cases h0 : i = 0
    · subst h0; norm_num
    · by_cases h1 : i = 1
      · subst h1; norm_num
      · by_cases h2 : i = 2
        · subst h2; norm_num
        · rw [if_neg h0, if_neg h1, if_neg h2, if_neg (by omega)]
  | 3 =>
    have e : read_bignum_scatter w buf 3 0 ipEccWordBytes =
        ((((buf.set 3 ((w >>> (8*0)) &&& 0xff)).set 2 ((w >>> (8*1)) &&& 0xff)).set 1
          ((w >>> (8*2)) &&& 0xff)).set 0 ((w >>> (8*3)) &&& 0xff), 0, true) := by
      simp [read_bignum_scatter, ipEccWordBytes]
    rw [e]
    refine ⟨by norm_num, by simp, ?_⟩
    intro i
    rw [getD_set_lt (by simp; omega), getD_set_lt (by simp; omega),
      getD_set_lt (by simp; omega), getD_set_lt (by omega)]
    by_cases h0 : i = 0
    · subst h0; norm_num
    · by_cases h1 : i = 1
      · subst h1; norm_num
      · by_cases h2 : i = 2
        · subst h2; norm_num
        · by_cases h3 : i = 3
          · subst h3; norm_num
          · rw [if_neg h0, if_neg h1, if_neg h2, if_neg h3, if_neg (by omega)]
  | m + 4 =>
    have e : read_bignum_scatter w buf (m+4) 0 ipEccWordBytes =
        ((((buf.set (m+4) ((w >>> (8*0)) &&& 0xff)).set (m+3) ((w >>> (8*1)) &&& 0xff)).set
          (m+2) ((w >>> (8*2)) &&& 0xff)).set (m+1) ((w >>> (8*3)) &&& 0xff), m, false) := by
      simp [read_bignum_scatter, ipEccWordBytes]
    rw [e]
    refine ⟨by norm_num, by simp, ?_⟩
    intro i
    rw [getD_set_lt (by simp; omega), getD_set_lt (by simp; omega),
      getD_set_lt (by simp; omega), getD_set_lt (by omega)]
    by_cases h1 : i = m + 1
    · subst h1
      rw [if_pos rfl, if_pos (by omega), show m + 4 - (m+1) = 3 by omega]
    · by_cases h2 : i = m + 2
      · subst h2
        rw [if_neg h1, if_pos rfl, if_pos (by omega), show m + 4 - (m+2) = 2 by omega]
      · by_cases h3 : i = m + 3
        · subst h3
          rw [if_neg h1, if_neg h2, if_pos rfl, if_pos (by omega),
            show m + 4 - (m+3) = 1 by omega]
        · by_cases h4 : i = m + 4
          · subst h4
            rw [if_neg h1, if_neg h2, if_neg h3, if_pos rfl, if_pos (by omega),
              show m + 4 - (m+4) = 0 by omega]
          · rw [if_neg h1, if_neg h2, if_neg h3, if_neg h4, if_neg (by omega)]

theorem headD_eq_getD (ws : List Nat) : ws.headD 0 = ws.getD 0 0 := by
  cases ws <;> rfl

theorem getD_tail (ws : List Nat) (j : Nat) : ws.getD (j+1) 0 = ws.tail.getD j 0 := by
  cases ws <;> simp [List.getD]

theorem wByte_succ (ws : List Nat) (k : Nat) : wByte ws (k + 4) = wByte ws.tail k := by
  unfold wByte
  rw [show (k+4) / 4 = k / 4 + 1 by omega, show (k+4) % 4 = k % 4 by omega, getD_tail]

theorem wByte_head (ws : List Nat) (k : Nat) (hk : k < 4) :
    wByte ws k = (ws.headD 0 >>> (8 * k)) &&& 0xff := by
  unfold wByte
  rw [show k / 4 = 0 by omega, show k % 4 = k by omega, headD_eq_getD]

theorem read_bignum_loop_spec : ∀ (n : Nat) (ws buf : List Nat) (idx : Nat),
    idx < buf.length → idx < 4 * n →
    (read_bignum_loop n ws buf idx false).length = buf.length ∧
    ∀ i, (read_bignum_loop n ws buf idx false).getD i 0 =
      if i ≤ idx then wByte ws (idx - i) else buf.getD i 0 := by
  intro n
  induction n with
  | zero => intro ws buf idx h1 h2; omega
  | succ n ih =>
    intro ws buf idx h1 h2
    rw [read_bignum_loop]
    simp only [Bool.false_eq_true, if_false]
    obtain ⟨e2, elen, egetD⟩ := read_bignum_scatter_spec (ws.headD 0) buf idx h1
    have e21 : (read_bignum_scatter (ws.headD 0) buf idx 0 ipEccWordBytes).2.1 = idx - 4 := by
      rw [e2]
    have e22 : (read_bignum_scatter (ws.headD 0) buf idx 0 ipEccWordBytes).2.2 =
        decide (idx < 4) := by
      rw [e2]
    rw [e21, e22]
    by_cases h4 : idx < 4
    · rw [decide_eq_true h4, read_bignum_loop_end]
      refine ⟨elen, ?_⟩
      intro i
      rw [egetD i]
      by_cases hi : i ≤ idx
      · rw [if_pos ⟨hi, by omega⟩, if_pos hi, wByte_head ws _ (by omega)]
      · rw [if_neg (by omega), if_neg hi]
    · have hd : decide (idx < 4) = false := by simp [h4]
      rw [hd]
      obtain ⟨ilen, igetD⟩ := ih ws.tail
        (read_bignum_scatter (ws.headD 0) buf idx 0 ipEccWordBytes).1 (idx - 4)
        (by rw [elen]; omega) (by omega)
      refine ⟨by rw [ilen, elen], ?_⟩
      intro i
      rw [igetD i]
      by_cases hi : i ≤ idx - 4
      · rw [if_pos hi, if_pos (by omega), show idx - i = (idx - 4 - i) + 4 by omega,
          wByte_succ]
      · rw [if_neg hi, egetD i]
        by_cases hii : i ≤ idx
        · rw [if_pos ⟨hii, by omega⟩, if_pos hii, wByte_head ws _ (by omega)]
        · rw [if_neg (by omega), if_neg hii]

theorem packChunk4_bytes {b0 b1 b2 b3 : Nat} (h0 : b0 < 256) (h1 : b1 < 256)
    (h2 : b2 < 256) (h3 : b3 < 256) :
    (packChunk4 b0 b1 b2 b3 >>> (8*0)) &&& 0xff = b0 ∧
    (packChunk4 b0 b1 b2 b3 >>> (8*1)) &&& 0xff = b1 ∧
    (packChunk4 b0 b1 b2 b3 >>> (8*2)) &&& 0xff = b2 ∧
    (packChunk4 b0 b1 b2 b3 >>> (8*3)) &&& 0xff = b3 := by
  unfold packChunk4
  refine ⟨?_, ?_, ?_, ?_⟩ <;>
    rw [and_255_eq_mod, Nat.shiftRight_eq_div_pow] <;> norm_num <;> omega

theorem getD_replicate_zero (n j : Nat) : (List.replicate n 0).getD j 0 = 0 := by
  rw [List.getD_eq_getElem?_getD, List.getElem?_replicate]
  split <;> rfl

theorem wByte_replicate_zero (n k : Nat) : wByte (List.replicate n 0) k = 0 := by
  unfold wByte
  rw [getD_replicate_zero]
  simp

theorem wByte_specWords (a : List Nat) (hb : ∀ x ∈ a, x < 256) :
    ∀ n idx k, k < 4 * n → wByte (specWords a idx n) k = byteAt a idx k := by
  intro n
  induction n with
  | zero => intro idx k hk; omega
  | succ n ih =>
    intro idx k hk
    rw [specWords]
    obtain ⟨p0, p1, p2, p3⟩ := packChunk4_bytes (byteAt_lt_256 hb idx 0)
      (byteAt_lt_256 hb idx 1) (byteAt_lt_256 hb idx 2) (byteAt_lt_256 hb idx 3)
    match k with
    | 0 => rw [wByte_head _ _ (by omega)]; simpa using p0
    | 1 => rw [wByte_head _ _ (by omega)]; simpa using p1
    | 2 => rw [wByte_head _ _ (by omega)]; simpa using p2
    | 3 => rw [wByte_head _ _ (by omega)]; simpa using p3
    | k + 4 =>
      rw [wByte_succ]
      simp only [List.tail_cons]
      by_cases h4 : idx < 4
      · rw [if_pos h4, wByte_replicate_zero]
        unfold byteAt
        rw [if_neg (by omega)]
      · rw [if_neg h4, ih (idx - 4) k (by omega)]
        unfold byteAt
        by_cases hki : k ≤ idx - 4
        · rw [if_pos hki, if_pos (by omega), show idx - (k + 4) = idx - 4 - k by omega]
        · rw [if_neg hki, if_neg (by omega)]

theorem nn_words_eq (sz : Nat) : ip_ecc_nn_words_from_bytes_sz sz = (sz + 3) / 4 := by
  simp only [ip_ecc_nn_words_from_bytes_sz, ipEccWordBytes]
  split <;> omega

theorem list_eq_of_getD {l₁ l₂ : List Nat} (hlen : l₁.length = l₂.length)
    (h : ∀ i, i < l₁.length → l₁.getD i 0 = l₂.getD i 0) : l₁ = l₂ := by
  apply List.ext_getElem hlen
  intro i h1 h2
  have hh := h i h1
  rwa [List.getD_eq_getElem _ _ h1, List.getD_eq_getElem _ _ h2] at hh

theorem getD_replicate_append (m : Nat) (b : List Nat) (i : Nat) :
    (List.replicate m 0 ++ b).getD i 0 = if i < m then 0 else b.getD (i - m) 0 := by
  rw [List.getD_eq_getElem?_getD, List.getElem?_append, List.length_replicate,
    List.getElem?_replicate]
  by_cases h : i < m
  · simp [h]
  · simp [h, List.getD_eq_getElem?_getD]

theorem codec_round_trip_core (b buf : List Nat) (n : Nat)
    (hb : ∀ x ∈ b, x < 256)
    (hL : b.length ≤ buf.length)
    (hn : buf.length ≤ 4 * n) :
    read_bignum_loop n
      (write_bignum_loop b n (if 1 ≤ b.length then b.length - 1 else 0)
        (decide (b.length < 1)))
      buf (if 1 ≤ buf.length then buf.length - 1 else 0) (decide (buf.length < 1)) =
    List.replicate (buf.length - b.length) 0 ++ b := by
  rcases Nat.eq_zero_or_pos buf.length with h0 | hpos
  · have hbuf : buf = [] := List.length_eq_zero.mp h0
    have hb0 : b = [] := List.length_eq_zero.mp (by omega)
    subst hbuf; subst hb0
    simp [read_bignum_loop_end]
  · have einit : decide (buf.length < 1) = false := decide_eq_false (by omega)
    have iinit : (if 1 ≤ buf.length then buf.length - 1 else 0) = buf.length - 1 :=
      if_pos (by omega)
    rw [einit, iinit]
    rcases Nat.eq_zero_or_pos b.length with hb0 | hb1
    · have hbnil : b = [] := List.length_eq_zero.mp hb0
      subst hbnil
      rw [show decide (([]:List Nat).length < 1) = true by decide,
        show (if 1 ≤ ([]:List Nat).length then ([]:List Nat).length - 1 else 0) = 0 by simp,
        write_bignum_loop_end]
      obtain ⟨rlen, rget⟩ := read_bignum_loop_spec n (List.replicate n 0) buf
        (buf.length - 1) (by omega) (by omega)
      apply list_eq_of_getD
      · rw [rlen]; simp
      · intro i hi
        rw [rlen] at hi
        rw [rget i, if_pos (by omega), wByte_replicate_zero, getD_replicate_append,
          if_pos (by omega)]
    · have einitb : decide (b.length < 1) = false := decide_eq_false (by omega)
      have iinitb : (if 1 ≤ b.length then b.length - 1 else 0) = b.length - 1 :=
        if_pos (by omega)
      rw [einitb, iinitb, write_bignum_loop_spec b hb]
      obtain ⟨rlen, rget⟩ := read_bignum_loop_spec n (specWords b (b.length - 1) n) buf
        (buf.length - 1) (by omega) (by omega)
      apply list_eq_of_getD
      · rw [rlen, List.length_append, List.length_replicate]; omega
      · intro i hi
        rw [rlen] at hi
        rw [rget i, if_pos (by omega),
          wByte_specWords b hb n (b.length - 1) (buf.length - 1 - i) (by omega),
          getD_replicate_append]
        unfold byteAt
        by_cases hcase : i < buf.length - b.length
        · rw [if_neg (by omega), if_pos hcase]
        · rw [if_pos (by omega), if_neg hcase]
          congr 1
          omega

/-- Claim C1: big-number codec round-trip -- for every field bit-width `nn`
and every byte sequence `b` of length `L ≤ ceil(nn/8)`, decoding (into a
caller buffer of `ceil(nn/8)` bytes, arbitrary initial contents) the word
sequence produced by encoding `b` yields `b` zero-extended on the high
end. -/
theorem C1_bignum_codec_round_trip (nn : Nat) (b buf : List Nat)
    (hb : ∀ x ∈ b, x < 256)
    (hL : b.length ≤ ip_ecc_nn_bytes_from_bits_sz nn)
    (hbuf : buf.length = ip_ecc_nn_bytes_from_bits_sz nn) :
    ∃ ws, ip_ecc_write_bignum b nn = some ws ∧
      ip_ecc_read_bignum buf ws nn =
        some (List.replicate (ip_ecc_nn_bytes_from_bits_sz nn - b.length) 0 ++ b) := by
  have hw := nn_words_eq
  refine ⟨write_bignum_loop b
      (ip_ecc_nn_words_from_bytes_sz (ip_ecc_nn_bytes_from_bits_sz nn))
      (if 1 ≤ b.length then b.length - 1 else 0) (decide (b.length < 1)), ?_, ?_⟩
  · simp only [ip_ecc_write_bignum]
    rw [if_neg (by rw [hw, hw]; omega)]
  · simp only [ip_ecc_read_bignum]
    rw [if_neg (by rw [hw, hw, hbuf]; omega)]
    refine congrArg some ?_
    rw [codec_round_trip_core b buf _ hb (by omega)
      (by rw [hw]; omega), hbuf]

/-- Witness for C1 at `nn = 48` (6 bytes), `b = [1, 2, 3]`, and a 6-byte
caller buffer initially filled with 9s. -/
theorem C1_bignum_codec_round_trip_witness :
    (∀ x ∈ ([1, 2, 3] : List Nat), x < 256) ∧
    ([1, 2, 3] : List Nat).length ≤ ip_ecc_nn_bytes_from_bits_sz 48 ∧
    (List.replicate 6 9).length = ip_ecc_nn_bytes_from_bits_sz 48 ∧
    ∃ ws, ip_ecc_write_bignum [1, 2, 3] 48 = some ws ∧
      ip_ecc_read_bignum (List.replicate 6 9) ws 48 =
        some (List.replicate (ip_ecc_nn_bytes_from_bits_sz 48 -
          ([1, 2, 3] : List Nat).length) 0 ++ [1, 2, 3]) :=
  ⟨by decide, by decide, by decide,
    C1_bignum_codec_round_trip 48 [1, 2, 3] (List.replicate 6 9)
      (by decide) (by decide) (by decide)⟩

theorem and_mask_idem (x m : Nat) : (x &&& m) &&& m = x &&& m := by
  rw [Nat.and_assoc, Nat.and_self]

/-- Claim C5: after a transaction, a non-zero error field read from the
status register is acknowledged by writing the identical bit pattern (the
field value, at the same bit position 16) to the acknowledge register and
the call reports failure, with the raw vector stored through the optional
output parameter; a zero field reports success and nothing is written to
the acknowledge register. -/
theorem C5_check_error_ack (status : Nat) (withOut : Bool) :
    (IPECC_GET_ERROR status ≠ 0 →
      ip_ecc_check_error status withOut =
        { ret := -1,
          out := if withOut then some (IPECC_GET_ERROR status) else none,
          ack := some (IPECC_GET_ERROR status <<< IPECC_R_STATUS_ERRID_POS) }) ∧
    (IPECC_GET_ERROR status = 0 →
      ip_ecc_check_error status withOut =
        { ret := 0, out := if withOut then some 0 else none, ack := none }) := by
  have hval : IPECC_ACK_ERROR_val (IPECC_GET_ERROR status) =
      IPECC_GET_ERROR status <<< IPECC_R_STATUS_ERRID_POS := by
    unfold IPECC_ACK_ERROR_val IPECC_GET_ERROR IPECC_R_STATUS_ERRID_MSK
    rw [and_mask_idem]
  constructor
  · intro h
    simp only [ip_ecc_check_error, if_pos h, hval]
  · intro h
    simp only [ip_ecc_check_error, h]
    simp

/-- Witness for C5 at status `0x50000` (error field `5`) and status `0`. -/
theorem C5_check_error_ack_witness :
    (IPECC_GET_ERROR 0x50000 ≠ 0 ∧
      ip_ecc_check_error 0x50000 true =
        { ret := -1, out := some (IPECC_GET_ERROR 0x50000),
          ack := some (IPECC_GET_ERROR 0x50000 <<< IPECC_R_STATUS_ERRID_POS) }) ∧
    (IPECC_GET_ERROR 0 = 0 ∧
      ip_ecc_check_error 0 true = { ret := 0, out := some 0, ack := none }) :=
  ⟨⟨by decide, by simpa using (C5_check_error_ack 0x50000 true).1 (by decide)⟩,
   ⟨by decide, by simpa using (C5_check_error_ack 0 true).2 (by decide)⟩⟩

/-- Claim C6: for every point operation that writes coordinates into
`R0`/`R1`, saving the two null flags before the coordinate writes and
restoring them immediately after yields the same null-flag state as before
the writes, regardless of the coordinate values written (and of which of
the two point registers the operation loads). -/
theorem C6_null_flag_preservation (s : PointRegs) (wR0 wR1 : Bool)
    (x0 y0 x1 y1 : List Nat) :
    ∃ s', point_op_inf_save_restore s wR0 wR1 x0 y0 x1 y1 = some s' ∧
      s'.r0_inf = s.r0_inf ∧ s'.r1_inf = s.r1_inf := by
  cases h0 : s.r0_inf <;> cases h1 : s.r1_inf <;> cases wR0 <;> cases wR1 <;>
    simp [point_op_inf_save_restore, ip_ecc_get_r0_inf, ip_ecc_get_r1_inf,
      hw_write_r0_coords, hw_write_r1_coords, ip_ecc_set_r0_inf,
      ip_ecc_set_r1_inf, h0, h1]

theorem wait_const_set_none : ∀ fuel t,
    IPECC_ENOUGH_WK_RANDOM_WAIT (fun _ => IPECC_R_STATUS_ENOUGH_RND_WK) fuel t =
      none := by
  intro fuel
  induction fuel with
  | zero => intro t; rfl
  | succ n ih =>
    intro t
    rw [IPECC_ENOUGH_WK_RANDOM_WAIT, if_pos (by decide)]
    exact ih _

theorem wait_exit_flag_clear : ∀ (fuel : Nat) (status : Nat → Nat) (t : Nat),
    (IPECC_ENOUGH_WK_RANDOM_WAIT status fuel t).all
      (fun u => status u &&& IPECC_R_STATUS_ENOUGH_RND_WK == 0) = true := by
  intro fuel
  induction fuel with
  | zero => intro status t; rfl
  | succ n ih =>
    intro status t
    rw [IPECC_ENOUGH_WK_RANDOM_WAIT]
    by_cases h : status t &&& IPECC_R_STATUS_ENOUGH_RND_WK ≠ 0
    · rw [if_pos h]
      exact ih _ _
    · rw [if_neg h]
      simp at h
      simp [Option.all, h]

/-- Claim C2 (code bug): `IPECC_ENOUGH_WK_RANDOM_WAIT()` spins WHILE the
"enough random gathered" bit is set and falls through when it is clear --
the opposite of the gating its own comment (driver lines 550-552) and the
claim describe.  Consequently (1) with the flag constantly set the scalar
is never transmitted at all, (2) with the flag clear the transmission
starts immediately, and (3) in every run, transmission of the scalar
starts precisely at a status read where the flag is CLEAR. -/
theorem C2_enough_random_gate_inverted :
    (∀ fuel, write_bignum_scalar_transmit_time
      (fun _ => IPECC_R_STATUS_ENOUGH_RND_WK) fuel = none) ∧
    write_bignum_scalar_transmit_time (fun _ => 0) 1 = some 0 ∧
    (∀ (status : Nat → Nat) (fuel : Nat),
      (write_bignum_scalar_transmit_time status fuel).all
        (fun t => status t &&& IPECC_R_STATUS_ENOUGH_RND_WK == 0) = true) := by
  refine ⟨fun fuel => wait_const_set_none fuel 0, by decide, fun status fuel => ?_⟩
  exact wait_exit_flag_clear fuel status 0

/-- Claim C8: both microcode patch operations fail without any hardware
register write when the IP is neither debug-halted nor idle; when the IP is
halted or idle and the arguments are well-formed (a valid opcode-word
count, an opcode count readable by `ge_pow_of_2`, and an address / number
of opcodes within the rounded-up microcode size) the patch writes are
carried out and the calls succeed. -/
theorem C8_patch_requires_halted_or_idle (halted busy : Bool) (nbopcodes : Nat)
    (address msb lsb opsz : Nat) (buf : List Nat) (nbops : Nat) :
    (halted = false → busy = true →
      ip_ecc_patch_one_opcode halted busy nbopcodes address msb lsb opsz = (-1, []) ∧
      ip_ecc_patch_microcode halted busy nbopcodes buf nbops opsz = (-1, [])) ∧
    ((halted = true ∨ busy = false) → (opsz = 1 ∨ opsz = 2) →
      nbopcodes ≤ 2 ^ 31 → address ≤ ge_pow_of_2_loop nbopcodes 32 1 →
      nbops ≤ ge_pow_of_2_loop nbopcodes 32 1 →
      (ip_ecc_patch_one_opcode halted busy nbopcodes address msb lsb opsz).1 = 0 ∧
      (ip_ecc_patch_one_opcode halted busy nbopcodes address msb lsb opsz).2 ≠ [] ∧
      ip_ecc_patch_microcode halted busy nbopcodes buf nbops opsz =
        (0, patch_microcode_loop buf opsz nbops)) := by
  constructor
  · intro hh hb
    subst hh; subst hb
    constructor <;> rfl
  · intro hgate hopsz hnb haddr hnbops
    have hg : (!halted && busy) = false := by
      rcases hgate with h | h <;> subst h <;> simp
    have hsz : ¬(opsz ≠ 1 ∧ opsz ≠ 2) := by
      rcases hopsz with h | h <;> subst h <;> simp
    have hge : ge_pow_of_2 nbopcodes = some (ge_pow_of_2_loop nbopcodes 32 1) := by
      unfold ge_pow_of_2
      rw [if_neg (by omega)]
    refine ⟨?_, ?_, ?_⟩
    · unfold ip_ecc_patch_one_opcode
      rw [hg, if_neg (by simp), if_neg hsz, hge]
      simp only
      rw [if_neg (by omega)]
    · unfold ip_ecc_patch_one_opcode
      rw [hg, if_neg (by simp), if_neg hsz, hge]
      simp only
      rw [if_neg (by omega)]
      simp
    · unfold ip_ecc_patch_microcode
      rw [hg, if_neg (by simp), if_neg hsz, hge]
      simp only
      rw [if_neg (by omega)]

/-- Witness for C8: busy-and-not-halted fails without writes; a concrete
well-formed patch (512 opcodes, address 0x40, opsz 1, two opcodes) goes
through. -/
theorem C8_patch_requires_halted_or_idle_witness :
    (ip_ecc_patch_one_opcode false true 512 0x40 0 7 1 = (-1, []) ∧
      ip_ecc_patch_microcode false true 512 [1, 2] 2 1 = (-1, [])) ∧
    ((ip_ecc_patch_one_opcode true false 512 0x40 0 7 1).1 = 0 ∧
      (ip_ecc_patch_one_opcode true false 512 0x40 0 7 1).2 ≠ [] ∧
      ip_ecc_patch_microcode true false 512 [1, 2] 2 1 =
        (0, patch_microcode_loop [1, 2] 1 2)) :=
  ⟨(C8_patch_requires_halted_or_idle false true 512 0x40 0 7 1 [1, 2] 2).1 rfl rfl,
   (C8_patch_requires_halted_or_idle true false 512 0x40 0 7 1 [1, 2] 2).2
     (Or.inl rfl) (Or.inl rfl) (by norm_num) (by decide) (by decide)⟩

theorem and_65535_eq_mod (x : Nat) : x &&& 0xffff = x % 65536 := by
  have := Nat.and_pow_two_sub_one_eq_mod x 16
  norm_num at this
  exact this

/-- Claim C9 counterexample: at period `p = 65537` (with setup succeeded
and no pending hardware error) the driver returns success and writes the
value `1` to the Z-remask register -- enable bit set but period field
`(p-1) mod 2^16 = 0`, not `p - 1 = 65536` as the claim states. -/
theorem C9_zremask_counterexample :
    hw_driver_enable_zremask_and_set_period true 65537 0 = (0, some 1) ∧
    ((1 : Nat) >>> 16) &&& 0xffff ≠ 65537 - 1 := by decide

/-- Claim C9 (amended): for `p = 0` no configuration write is issued and
the call still reports success (when setup succeeded and no hardware error
is pending); for `p ≥ 1` the Z-remask register is written with the enable
bit set and `(p - 1) mod 2^16` in the period field. -/
theorem C9_zremask_amended (setup_ok : Bool) (period : Nat) (statusAfter : Nat) :
    (period = 0 →
      (hw_driver_enable_zremask_and_set_period setup_ok period statusAfter).2 = none ∧
      (setup_ok = true → IPECC_GET_ERROR statusAfter = 0 →
        hw_driver_enable_zremask_and_set_period setup_ok period statusAfter =
          (0, none))) ∧
    (1 ≤ period → setup_ok = true →
      (hw_driver_enable_zremask_and_set_period setup_ok period statusAfter).2 =
        some (IPECC_ENABLE_ZREMASK_val (period - 1)) ∧
      IPECC_ENABLE_ZREMASK_val (period - 1) &&& 1 = 1 ∧
      (IPECC_ENABLE_ZREMASK_val (period - 1) >>> 16) &&& 0xffff =
        (period - 1) % 65536) := by
  have harith : IPECC_ENABLE_ZREMASK_val (period - 1) =
      1 + ((period - 1) &&& 0xffff) * 2 ^ 16 := by
    unfold IPECC_ENABLE_ZREMASK_val IPECC_W_ZREMASK_EN
    exact lor_shiftLeft_eq_add (by norm_num)
  have hfield : (period - 1) &&& 0xffff = (period - 1) % 65536 :=
    and_65535_eq_mod _
  constructor
  · intro h0
    subst h0
    constructor
    · cases setup_ok
      · simp [hw_driver_enable_zremask_and_set_period,
          ip_ecc_enable_zremask_and_set_period]
      · simp [hw_driver_enable_zremask_and_set_period,
          ip_ecc_enable_zremask_and_set_period]
        split <;> rfl
    · intro hs herr
      subst hs
      simp [hw_driver_enable_zremask_and_set_period,
        ip_ecc_enable_zremask_and_set_period, herr]
  · intro hp hs
    subst hs
    have hne : period ≠ 0 := by omega
    refine ⟨?_, ?_, ?_⟩
    · simp only [hw_driver_enable_zremask_and_set_period, Bool.not_true,
        Bool.false_eq_true, if_false, ip_ecc_enable_zremask_and_set_period,
        if_neg hne]
      split <;> rfl
    · rw [harith, Nat.and_one_is_mod]
      omega
    · rw [harith, Nat.shiftRight_eq_div_pow, hfield, and_65535_eq_mod]
      omega

/-- Witness for C9 (amended) at `p = 0` and `p = 5`. -/
theorem C9_zremask_amended_witness :
    (hw_driver_enable_zremask_and_set_period true 0 0).2 = none ∧
    hw_driver_enable_zremask_and_set_period true 0 0 = (0, none) ∧
    (hw_driver_enable_zremask_and_set_period true 5 0).2 =
      some (IPECC_ENABLE_ZREMASK_val 4) ∧
    IPECC_ENABLE_ZREMASK_val 4 &&& 1 = 1 ∧
    (IPECC_ENABLE_ZREMASK_val 4 >>> 16) &&& 0xffff = 4 % 65536 :=
  ⟨((C9_zremask_amended true 0 0).1 rfl).1,
   ((C9_zremask_amended true 0 0).1 rfl).2 rfl (by decide),
   ((C9_zremask_amended true 5 0).2 (by norm_num) rfl).1,
   ((C9_zremask_amended true 5 0).2 (by norm_num) rfl).2.1,
   ((C9_zremask_amended true 5 0).2 (by norm_num) rfl).2.2⟩

/-- Claim C10 counterexample: on dynamic-`nn` hardware with
`nn_max = 0x1ffff`, for `p_sz = q_sz = 0x2100` bytes we have
`8 * max = 0x10800 ≤ nn_max`, yet the value written to the prime-size
register is `0x10800` truncated to the 16-bit field, i.e. `0x800`, not
`8 * max(p_sz, q_sz)`. -/
theorem C10_set_curve_counterexample :
    (hw_driver_set_curve ⟨true, 0x1ffff, true, 0, true, true, true, true⟩
      0x2100 0x2100).2 = some 0x800 ∧
    (0x800 : Nat) ≠ 8 * max 0x2100 0x2100 := by decide

/-- Claim C10 (amended): on hardware supporting dynamic `nn` (and with
setup succeeded), `hw_driver_set_curve` computes `8 * max(p_sz, q_sz)` in
32-bit arithmetic; if that value does not exceed the hardware `nn`
maximum it is written to the prime-size register truncated to the 16-bit
field, and otherwise the call fails with no `nn` write. -/
theorem C10_set_curve_amended (o : CurveOracle) (p_sz q_sz : Nat)
    (hsetup : o.setup_ok = true) (hdyn : o.nn_dyn = true) :
    ((8 * max p_sz q_sz) % 2 ^ 32 ≤ o.nn_max →
      (hw_driver_set_curve o p_sz q_sz).2 =
        some (((8 * max p_sz q_sz) % 2 ^ 32) &&& 0xffff)) ∧
    (o.nn_max < (8 * max p_sz q_sz) % 2 ^ 32 →
      hw_driver_set_curve o p_sz q_sz = (-1, none)) := by
  have hmax : (if p_sz > q_sz then ip_ecc_set_nn_bit_size o ((8 * p_sz) % 2 ^ 32)
      else ip_ecc_set_nn_bit_size o ((8 * q_sz) % 2 ^ 32)) =
      ip_ecc_set_nn_bit_size o ((8 * max p_sz q_sz) % 2 ^ 32) := by
    by_cases h : p_sz > q_sz
    · rw [if_pos h, Nat.max_eq_left (by omega)]
    · rw [if_neg h, Nat.max_eq_right (by omega)]
  constructor
  · intro hle
    simp only [hw_driver_set_curve, hsetup, Bool.not_true, Bool.false_eq_true,
      if_false, hmax]
    simp only [ip_ecc_set_nn_bit_size, if_neg (by omega : ¬ (8 * max p_sz q_sz) %
      2 ^ 32 > o.nn_max), hdyn, if_true, IPECC_SET_NN_SIZE_val, Nat.shiftLeft_zero]
    split_ifs <;> rfl
  · intro hgt
    simp only [hw_driver_set_curve, hsetup, Bool.not_true, Bool.false_eq_true,
      if_false, hmax]
    simp only [ip_ecc_set_nn_bit_size, if_pos (by omega : (8 * max p_sz q_sz) %
      2 ^ 32 > o.nn_max)]
    rfl

/-- Witness for C10 (amended): `nn_max = 528`, `p_sz = 32`, `q_sz = 24`
(so `8*max = 256 ≤ 528` is written), and `p_sz = 80` (so `8*max = 640 >
528` fails). -/
theorem C10_set_curve_amended_witness :
    (hw_driver_set_curve ⟨true, 528, true, 0, true, true, true, true⟩ 32 24).2 =
      some (((8 * max 32 24) % 2 ^ 32) &&& 0xffff) ∧
    hw_driver_set_curve ⟨true, 528, true, 0, true, true, true, true⟩ 80 24 =
      (-1, none) :=
  ⟨(C10_set_curve_amended ⟨true, 528, true, 0, true, true, true, true⟩ 32 24
      rfl rfl).1 (by norm_num),
   (C10_set_curve_amended ⟨true, 528, true, 0, true, true, true, true⟩ 80 24
      rfl rfl).2 (by norm_num)⟩

/-- Claim C7: for `hw_driver_neg` / `hw_driver_dbl` / `hw_driver_add` (with
all hardware sub-calls succeeding), the source point is written into `R0`
(plus `R1` for `add`), the command is executed, and the result is read back
from `R1` with both output byte-lengths set to exactly `ceil(nn/8)`; if
either caller-provided output capacity is smaller than `ceil(nn/8)` the
call fails and no result is read back. -/
theorem C7_point_op_result_sizes (o : PointOpOracle) (sx sy : Nat)
    (hok : o.setup_ok = true ∧ o.w_r0x = true ∧ o.w_r0y = true ∧ o.w_r1x = true ∧
      o.w_r1y = true ∧ o.set_r0_ok = true ∧ o.set_r1_ok = true ∧ o.exec_ok = true ∧
      o.read_x_ok = true ∧ o.read_y_ok = true) :
    ((sx < ip_ecc_nn_bytes_from_bits_sz o.nn_bits ∨
        sy < ip_ecc_nn_bytes_from_bits_sz o.nn_bits) →
      hw_driver_neg o sx sy = ⟨-1, sx, sy, [.R0_X, .R0_Y], [], true⟩ ∧
      hw_driver_dbl o sx sy = ⟨-1, sx, sy, [.R0_X, .R0_Y], [], true⟩ ∧
      hw_driver_add o sx sy = ⟨-1, sx, sy, [.R0_X, .R0_Y, .R1_X, .R1_Y], [], true⟩) ∧
    (ip_ecc_nn_bytes_from_bits_sz o.nn_bits ≤ sx →
      ip_ecc_nn_bytes_from_bits_sz o.nn_bits ≤ sy →
      hw_driver_neg o sx sy = ⟨0, ip_ecc_nn_bytes_from_bits_sz o.nn_bits,
        ip_ecc_nn_bytes_from_bits_sz o.nn_bits, [.R0_X, .R0_Y],
        [.R1_X, .R1_Y], true⟩ ∧
      hw_driver_dbl o sx sy = ⟨0, ip_ecc_nn_bytes_from_bits_sz o.nn_bits,
        ip_ecc_nn_bytes_from_bits_sz o.nn_bits, [.R0_X, .R0_Y],
        [.R1_X, .R1_Y], true⟩ ∧
      hw_driver_add o sx sy = ⟨0, ip_ecc_nn_bytes_from_bits_sz o.nn_bits,
        ip_ecc_nn_bytes_from_bits_sz o.nn_bits, [.R0_X, .R0_Y, .R1_X, .R1_Y],
        [.R1_X, .R1_Y], true⟩) := by
  obtain ⟨h1, h2, h3, h4, h5, h6, h7, h8, h9, h10⟩ := hok
  constructor
  · intro hsmall
    refine ⟨?_, ?_, ?_⟩ <;>
      simp [hw_driver_neg, hw_driver_dbl, hw_driver_add, h1, h2, h3, h4, h5, h6,
        h7, h8, h9, h10, hsmall]
  · intro hx hy
    have hsmall : ¬(sx < ip_ecc_nn_bytes_from_bits_sz o.nn_bits ∨
        sy < ip_ecc_nn_bytes_from_bits_sz o.nn_bits) := by omega
    refine ⟨?_, ?_, ?_⟩ <;>
      simp [hw_driver_neg, hw_driver_dbl, hw_driver_add, h1, h2, h3, h4, h5, h6,
        h7, h8, h9, h10, hsmall]

/-- Witness for C7 at `nn = 256` bits (`nn_sz = 32`): capacities 16/64 are
a size error, capacities 32/64 succeed with both output sizes set to 32. -/
theorem C7_point_op_result_sizes_witness :
    (hw_driver_neg ⟨true, 256, true, true, true, true, true, true, true, true,
        true⟩ 16 64).ret = -1 ∧
    hw_driver_add ⟨true, 256, true, true, true, true, true, true, true, true,
        true⟩ 32 64 =
      ⟨0, 32, 32, [.R0_X, .R0_Y, .R1_X, .R1_Y], [.R1_X, .R1_Y], true⟩ := by
  have hth := C7_point_op_result_sizes
    ⟨true, 256, true, true, true, true, true, true, true, true, true⟩ 16 64
    ⟨rfl, rfl, rfl, rfl, rfl, rfl, rfl, rfl, rfl, rfl⟩
  have hth2 := C7_point_op_result_sizes
    ⟨true, 256, true, true, true, true, true, true, true, true, true⟩ 32 64
    ⟨rfl, rfl, rfl, rfl, rfl, rfl, rfl, rfl, rfl, rfl⟩
  refine ⟨?_, ?_⟩
  · rw [(hth.1 (by decide)).1]
  · have := (hth2.2 (by decide) (by decide)).2.2
    simpa using this

/-- Claim C4 counterexample: with the hardware capability reporting SECURE
synthesis (`secure = true`), an idle IP and a successful setup,
`hw_driver_attack_set_level 0` returns success (0, not a capability error)
and issues a non-empty sequence of hardware register writes -- it performs
no `IPECC_IS_HW_SECURE()` check at all. -/
theorem C4_attack_level_counterexample :
    (hw_driver_attack_set_level ⟨true, true, false, false, 512⟩ 0).1 = 0 ∧
    (hw_driver_attack_set_level ⟨true, true, false, false, 512⟩ 0).2 ≠ [] := by
  decide

/-- Claim C4 (amended): the `_DBG` debug entry points (here
`hw_driver_set_breakpoint_DBG`) do return an error without any hardware
register write when the capability reports secure mode; the attack-level
preset `hw_driver_attack_set_level`, however, performs no capability check:
invoked in secure mode with the IP idle it still issues its
countermeasure-register writes. -/
theorem C4_debug_gate_amended (o : DbgOracle) (addr id : Nat)
    (hsec : o.secure = true) :
    hw_driver_set_breakpoint_DBG o addr id = (-1, []) ∧
    (o.setup_ok = true → o.busy = false →
      (hw_driver_attack_set_level o 0).2 ≠ []) := by
  constructor
  · unfold hw_driver_set_breakpoint_DBG
    cases hs : o.setup_ok <;> simp [hsec]
  · intro h1 h2
    simp only [hw_driver_attack_set_level, h1, Bool.not_true, Bool.false_eq_true,
      if_false]
    norm_num
    simp only [ip_ecc_attack_set_cfg_0, h2, Bool.and_false, Bool.false_eq_true,
      if_false]
    split <;> simp

/-- Witness for C4 (amended) at a concrete secure-mode oracle. -/
theorem C4_debug_gate_amended_witness :
    hw_driver_set_breakpoint_DBG ⟨true, true, false, false, 512⟩ 7 1 = (-1, []) ∧
    (hw_driver_attack_set_level ⟨true, true, false, false, 512⟩ 0).2 ≠ [] :=
  ⟨(C4_debug_gate_amended ⟨true, true, false, false, 512⟩ 7 1 rfl).1,
   (C4_debug_gate_amended ⟨true, true, false, false, 512⟩ 7 1 rfl).2 rfl rfl⟩

/-- Claim C3 counterexample: with `nn = 256` bits (`nn_sz = 32`) and every
sub-step succeeding except the readback of the second coordinate, the call
fails (-1) yet the caller's output-size variables, initially 64, have been
set to 32, and the first output buffer has been overwritten with the
(masked) data read from `R1` -- refuting "output buffers and output-size
variables are unchanged on a failing call". -/
theorem C3_mul_counterexample :
    (hw_driver_mul ⟨true, 256, true, List.replicate 32 0, true, true, true, true,
        true, true, true, false, List.replicate 32 7, []⟩
      (List.replicate 64 1) 64 (List.replicate 64 1) 64).ret = -1 ∧
    (hw_driver_mul ⟨true, 256, true, List.replicate 32 0, true, true, true, true,
        true, true, true, false, List.replicate 32 7, []⟩
      (List.replicate 64 1) 64 (List.replicate 64 1) 64).out_x_sz = 32 ∧
    (32 : Nat) ≠ 64 ∧
    (hw_driver_mul ⟨true, 256, true, List.replicate 32 0, true, true, true, true,
        true, true, true, false, List.replicate 32 7, []⟩
      (List.replicate 64 1) 64 (List.replicate 64 1) 64).out_x =
      List.replicate 32 7 ∧
    List.replicate 32 (7:Nat) ≠ List.replicate 64 1 := by
  decide

/-- Claim C3 (amended): every failing sub-step of `hw_driver_mul` aborts
the whole operation with -1 and no later sub-step runs; the caller's
output buffers and output-size variables are unchanged when the failure
occurs before the output-size check, but when the readback of the second
coordinate fails the size variables have already been set to `ceil(nn/8)`
and the first coordinate's buffer already holds the data read back; when
every sub-step succeeds the call returns 0 with both sizes `ceil(nn/8)`. -/
theorem C3_mul_first_error_aborts (o : MulOracle) (ox : List Nat) (sx : Nat)
    (oy : List Nat) (sy : Nat) :
    ((hw_driver_mul o ox sx oy sy).ret = 0 ∨ (hw_driver_mul o ox sx oy sy).ret = -1) ∧
    (mulPreOk o = false →
      (hw_driver_mul o ox sx oy sy).ret = -1 ∧
      (hw_driver_mul o ox sx oy sy).out_x_sz = sx ∧
      (hw_driver_mul o ox sx oy sy).out_y_sz = sy ∧
      (hw_driver_mul o ox sx oy sy).out_x = ox ∧
      (hw_driver_mul o ox sx oy sy).out_y = oy ∧
      MulStep.readR1X ∉ (hw_driver_mul o ox sx oy sy).steps) ∧
    (mulPreOk o = true → ip_ecc_nn_bytes_from_bits_sz o.nn_bits ≤ sx →
      ip_ecc_nn_bytes_from_bits_sz o.nn_bits ≤ sy →
      o.read_x_ok = true → o.read_y_ok = false →
      (hw_driver_mul o ox sx oy sy).ret = -1 ∧
      (hw_driver_mul o ox sx oy sy).out_x_sz =
        ip_ecc_nn_bytes_from_bits_sz o.nn_bits ∧
      (hw_driver_mul o ox sx oy sy).out_y_sz =
        ip_ecc_nn_bytes_from_bits_sz o.nn_bits ∧
      (hw_driver_mul o ox sx oy sy).out_x = o.r1x_data) ∧
    (mulPreOk o = true → ip_ecc_nn_bytes_from_bits_sz o.nn_bits ≤ sx →
      ip_ecc_nn_bytes_from_bits_sz o.nn_bits ≤ sy →
      o.read_x_ok = true → o.read_y_ok = true →
      (hw_driver_mul o ox sx oy sy).ret = 0 ∧
      (hw_driver_mul o ox sx oy sy).out_x_sz =
        ip_ecc_nn_bytes_from_bits_sz o.nn_bits ∧
      (hw_driver_mul o ox sx oy sy).out_y_sz =
        ip_ecc_nn_bytes_from_bits_sz o.nn_bits) := by
  cases hsu : o.setup_ok with
  | false => simp [hw_driver_mul, mulPreOk, hsu]
  | true =>
  by_cases hnn : ip_ecc_nn_bytes_from_bits_sz o.nn_bits > 4096
  · have hd : decide (ip_ecc_nn_bytes_from_bits_sz o.nn_bits ≤ 4096) = false :=
      decide_eq_false (by omega)
    simp [hw_driver_mul, mulPreOk, hsu, hnn, hd]
  · have hd : decide (ip_ecc_nn_bytes_from_bits_sz o.nn_bits ≤ 4096) = true :=
      decide_eq_true (by omega)
    cases htok : o.token_ok with
    | false => simp [hw_driver_mul, mulPreOk, hsu, hnn, hd, htok]
    | true =>
    cases hws : o.write_scalar_ok with
    | false => simp [hw_driver_mul, mulPreOk, hsu, hnn, hd, htok, hws]
    | true =>
    cases hwx : o.write_x_ok with
    | false => simp [hw_driver_mul, mulPreOk, hsu, hnn, hd, htok, hws, hwx]
    | true =>
    cases hwy : o.write_y_ok with
    | false => simp [hw_driver_mul, mulPreOk, hsu, hnn, hd, htok, hws, hwx, hwy]
    | true =>
    cases hs0 : o.set_r0_ok with
    | false => simp [hw_driver_mul, mulPreOk, hsu, hnn, hd, htok, hws, hwx, hwy, hs0]
    | true =>
    cases hs1 : o.set_r1_ok with
    | false =>
      simp [hw_driver_mul, mulPreOk, hsu, hnn, hd, htok, hws, hwx, hwy, hs0, hs1]
    | true =>
    cases hex : o.exec_ok with
    | false =>
      simp [hw_driver_mul, mulPreOk, hsu, hnn, hd, htok, hws, hwx, hwy, hs0, hs1, hex]
    | true =>
    by_cases hsz : sx < ip_ecc_nn_bytes_from_bits_sz o.nn_bits ∨
        sy < ip_ecc_nn_bytes_from_bits_sz o.nn_bits
    · simp only [hw_driver_mul, mulPreOk, hsu, hnn, hd, htok, hws, hwx, hwy, hs0,
        hs1, hex, Bool.not_true, Bool.false_eq_true, if_false, if_pos hsz,
        Bool.and_self]
      refine ⟨by simp, by simp, fun hpre hx hy hr1 hr2 => absurd hsz (by omega),
        fun hpre hx hy hr1 hr2 => absurd hsz (by omega)⟩
    · cases hrx : o.read_x_ok with
      | false =>
        simp only [hw_driver_mul, mulPreOk, hsu, hnn, hd, htok, hws, hwx, hwy,
          hs0, hs1, hex, hrx, Bool.not_true, Bool.not_false, Bool.false_eq_true,
          if_false, if_neg hsz, Bool.and_self, Bool.and_true, Bool.and_false,
          if_true]
        refine ⟨by simp, by simp, by simp, by simp⟩
      | true =>
      cases hry : o.read_y_ok with
      | false =>
        simp only [hw_driver_mul, mulPreOk, hsu, hnn, hd, htok, hws, hwx, hwy,
          hs0, hs1, hex, hrx, hry, Bool.not_true, Bool.not_false,
          Bool.false_eq_true, if_false, if_neg hsz, Bool.and_self, Bool.and_true,
          if_true]
        refine ⟨by simp, by simp, by simp, by simp⟩
      | true =>
        simp only [hw_driver_mul, mulPreOk, hsu, hnn, hd, htok, hws, hwx, hwy,
          hs0, hs1, hex, hrx, hry, Bool.not_true, Bool.not_false,
          Bool.false_eq_true, if_false, if_neg hsz, Bool.and_self, Bool.and_true,
          if_true, ip_ecc_unmask_with_token, ne_eq, not_true_eq_false]
        refine ⟨by simp, by simp, by simp, by simp⟩

/-- Witness for C3 (amended) at the concrete oracles of the counterexample
(second-coordinate readback failing) and of a fully successful run. -/
theorem C3_mul_first_error_aborts_witness :
    ((hw_driver_mul ⟨false, 256, true, [], true, true, true, true, true, true,
        true, true, [], []⟩ [5] 1 [6] 1).ret = -1 ∧
      (hw_driver_mul ⟨false, 256, true, [], true, true, true, true, true, true,
        true, true, [], []⟩ [5] 1 [6] 1).out_x = [5]) ∧
    (hw_driver_mul ⟨true, 256, true, List.replicate 32 0, true, true, true, true,
        true, true, true, true, List.replicate 32 7, List.replicate 32 8⟩
      (List.replicate 64 1) 64 (List.replicate 64 1) 64).ret = 0 := by
  refine ⟨⟨?_, ?_⟩, ?_⟩
  · exact ((C3_mul_first_error_aborts ⟨false, 256, true, [], true, true, true,
      true, true, true, true, true, [], []⟩ [5] 1 [6] 1).2.1 (by decide)).1
  · exact ((C3_mul_first_error_aborts ⟨false, 256, true, [], true, true, true,
      true, true, true, true, true, [], []⟩ [5] 1 [6] 1).2.1 (by decide)).2.2.2.1
  · exact ((C3_mul_first_error_aborts ⟨true, 256, true, List.replicate 32 0,
      true, true, true, true, true, true, true, true, List.replicate 32 7,
      List.replicate 32 8⟩ (List.replicate 64 1) 64
      (List.replicate 64 1) 64).2.2.2 (by decide) (by decide) (by decide)
      rfl rfl).1

end IPECC
